import Mathlib

/-! Continuum decision journal: the analytics engine of `script.js`.

A shallow embedding of the query pipeline (`DecisionManager.getFilteredDecisions`),
the pagination arithmetic of `loadTimelineDecisions`, the keyword tagger
(`analyzeContentForTags`), the tag merge of `saveDecision`, the greedy
clusterer (`findSimilarDecisions`), the sentiment scorer
(`calculateSentimentScore`), the four insight analyzers, the merge step of
`importDecisions` and the `DecisionManager` methods that read and change the
stored collection, followed by theorems about them.

Modelling conventions.
* A JavaScript string is a Lean `String` (a sequence of Unicode scalar values).
  For such strings `s.includes(t)` on UTF-16 code units coincides with the
  contiguous-sublist test on code points, because UTF-16 is self-synchronising.
* `String.prototype.toLowerCase` is a parameter `lc : String → String` of every
  definition that calls it, so each theorem holds for the real Unicode lowering.
  `asciiLower` is its restriction to ASCII letters and is used on ASCII inputs.
* Numbers that the code keeps integral are `Int`; quotients are exact rationals.
* `localStorage` is explicit: the stored collection is an argument.
* `new Date()` is an argument `now`.
* A number that may be `NaN` is an `Option ℚ`, `none` standing for `NaN`.
-/

namespace Continuum

/-! ## Data model -/

/-- One journal entry. `tags` and `emotionalState` may be missing from a stored
object, which the code tests with `d.tags && ...` and `d.emotionalState || 5`. -/
structure Decision where
  id : Int
  title : String
  intent : String
  constraints : String
  alternatives : String
  finalDecision : String
  reasoning : String
  emotionalState : Option Int
  tags : Option (List String)
  timestamp : Int
  date : String
deriving DecidableEq, Repr

/-- The `filter` argument of `getFilteredDecisions`; a missing key is `none`. -/
structure Filter where
  timeframe : Option String
  tag : Option String
deriving DecidableEq, Repr

/-! ## String primitives -/

/-- Lowering of the ASCII letters `A`..`Z`, every other character unchanged. -/
def asciiLowerChar (c : Char) : Char :=
  if 65 ≤ c.toNat ∧ c.toNat ≤ 90 then Char.ofNat (c.toNat + 32) else c

/-- ASCII lowering of a string: `toLowerCase` on strings without non-ASCII letters. -/
def asciiLower (s : String) : String := ⟨s.data.map asciiLowerChar⟩

/-- Worker of `includes` on character lists: does `t` occur in `s` contiguously. -/
def includesChars : List Char → List Char → Bool
  | [], t => t.isEmpty
  | c :: s, t => t.isPrefixOf (c :: s) || includesChars s t

/-- The method `s.includes(t)`. -/
def includes (s t : String) : Bool := includesChars s.data t.data

/-- Truthiness of a string value: only the empty string is falsy. -/
def truthy (s : String) : Bool := s != ""

/-! ## Array.prototype.sort -/

/-- Insert `a` in front of the first element it does not compare greater than. -/
def insertByCmp {α : Type} (cmp : α → α → Int) (a : α) : List α → List α
  | [] => [a]
  | b :: l => if cmp a b ≤ 0 then a :: b :: l else b :: insertByCmp cmp a l

/-- The method `xs.sort(cmp)`. ECMAScript requires the sort to be stable, so for
a consistent comparator the result is the stable sorted arrangement, which is
what insertion from the right computes. -/
def arraySort {α : Type} (cmp : α → α → Int) : List α → List α
  | [] => []
  | a :: l => insertByCmp cmp a (arraySort cmp l)

/-! ## DecisionManager.getFilteredDecisions -/

/-- Largest magnitude of a time value that `new Date(t)` accepts (8.64e15 ms). -/
def maxTimeValue : Int := 8640000000000000

/-- The constructor `new Date(t)` on an integer: the time value, or `none` for
an Invalid Date, whose arithmetic yields `NaN`. -/
def newDate (t : Int) : Option Int :=
  if -maxTimeValue ≤ t ∧ t ≤ maxTimeValue then some t else none

/-- Milliseconds per day, `1000 * 60 * 60 * 24`. -/
def msPerDay : Int := 1000 * 60 * 60 * 24

/-- The search predicate of lines 105-111, given the lower-cased term. -/
def searchPred (lc : String → String) (term : String) (d : Decision) : Bool :=
  includes (lc d.title) term ||
  includes (lc d.intent) term ||
  includes (lc d.finalDecision) term ||
  includes (lc d.reasoning) term ||
  (match d.tags with
   | none => false
   | some ts => ts.any (fun tag => includes (lc tag) term))

/-- The timeframe predicate of lines 117-128. `diffDays` is `NaN` when the
record's date is invalid, and every comparison with `NaN` is false. For valid
dates the quotient is taken in the rationals: the double-precision quotient of
an integer number of milliseconds by 86,400,000 is at most 7, 30 or 365 exactly
when the rational one is, since those bounds are doubles and rounding is
monotone. -/
def timeframePred (now : Int) (timeframe : String) (d : Decision) : Bool :=
  match newDate d.timestamp with
  | none =>
    if timeframe = "week" then false
    else if timeframe = "month" then false
    else if timeframe = "year" then false
    else true
  | some decisionDate =>
    let diffTime : Int := now - decisionDate
    let diffDays : ℚ := (diffTime : ℚ) / (msPerDay : ℚ)
    if timeframe = "week" then decide (diffDays ≤ 7)
    else if timeframe = "month" then decide (diffDays ≤ 30)
    else if timeframe = "year" then decide (diffDays ≤ 365)
    else true

/-- The tag predicate of lines 133-135. -/
def tagPred (lc : String → String) (tag : String) (d : Decision) : Bool :=
  match d.tags with
  | none => false
  | some ts => ts.any (fun t => lc t == lc tag)

/-- Stage 1 of `getFilteredDecisions`: the search filter. -/
def applySearch (lc : String → String) (searchTerm : String)
    (decisions : List Decision) : List Decision :=
  if truthy searchTerm then decisions.filter (searchPred lc (lc searchTerm))
  else decisions

/-- Stage 2 of `getFilteredDecisions`: the timeframe filter. -/
def applyTimeframe (now : Int) (timeframe : Option String)
    (decisions : List Decision) : List Decision :=
  match timeframe with
  | none => decisions
  | some tf =>
    if truthy tf && tf != "all" then decisions.filter (timeframePred now tf)
    else decisions

/-- Stage 3 of `getFilteredDecisions`: the tag filter. -/
def applyTag (lc : String → String) (tag : Option String)
    (decisions : List Decision) : List Decision :=
  match tag with
  | none => decisions
  | some g =>
    if truthy g && g != "all" then decisions.filter (tagPred lc g)
    else decisions

/-- The comparator `(a, b) => b.timestamp - a.timestamp`. -/
def byTimestampDesc (a b : Decision) : Int := b.timestamp - a.timestamp

/-- The function `DecisionManager.getFilteredDecisions(filter, searchTerm)` over
the stored collection `store`, evaluated at time `now`. -/
def getFilteredDecisions (lc : String → String) (now : Int) (store : List Decision)
    (filter : Filter) (searchTerm : String) : List Decision :=
  arraySort byTimestampDesc
    (applyTag lc filter.tag (applyTimeframe now filter.timeframe (applySearch lc searchTerm store)))

/-! ## Pagination in loadTimelineDecisions -/

/-- The method `xs.slice(start, end)` on integer arguments: a negative index
counts from the end, and both indices are clamped to `0..xs.length`. -/
def arraySlice {α : Type} (xs : List α) (start stop : Int) : List α :=
  let len : Int := xs.length
  let k : Int := if start < 0 then max (len + start) 0 else min start len
  let e : Int := if stop < 0 then max (len + stop) 0 else min stop len
  (xs.drop k.toNat).take (e - k).toNat

/-- What `loadTimelineDecisions` computes before it renders. -/
structure TimelinePage where
  totalDecisions : Nat
  totalPages : Option Int
  startIndex : Int
  endIndex : Int
  decisions : List Decision
deriving DecidableEq, Repr

/-- Lines 297-304 of `loadTimelineDecisions(page, itemsPerPage)`. The quotient
`totalDecisions / itemsPerPage` is not finite when `itemsPerPage` is zero, and
`totalPages` is then `none`. -/
def loadTimelineDecisions (lc : String → String) (now : Int) (store : List Decision)
    (filter : Filter) (searchTerm : String) (page itemsPerPage : Int) : TimelinePage :=
  let allDecisions := getFilteredDecisions lc now store filter searchTerm
  let totalDecisions := allDecisions.length
  let totalPages : Option Int :=
    if itemsPerPage = 0 then none
    else some (Int.ceil (((totalDecisions : Int) : ℚ) / (itemsPerPage : ℚ)))
  let startIndex := (page - 1) * itemsPerPage
  let endIndex := startIndex + itemsPerPage
  { totalDecisions := totalDecisions
    totalPages := totalPages
    startIndex := startIndex
    endIndex := endIndex
    decisions := arraySlice allDecisions startIndex endIndex }

/-! ## analyzeContentForTags -/

/-- The function `analyzeContentForTags(constraints, reasoning)`. -/
def analyzeContentForTags (lc : String → String) (constraints reasoning : String) :
    List String :=
  let text := lc (constraints ++ " " ++ reasoning)
  let tags : List String := []
  let tags :=
    if includes text "time" || includes text "deadline" || includes text "urgent"
    then tags ++ ["time-sensitive"] else tags
  let tags :=
    if includes text "money" || includes text "budget" || includes text "cost" ||
      includes text "paid"
    then tags ++ ["financial"] else tags
  let tags :=
    if includes text "learn" || includes text "experience" || includes text "growth" ||
      includes text "skill"
    then tags ++ ["learning"] else tags
  let tags :=
    if includes text "stress" || includes text "emotional" || includes text "feeling" ||
      includes text "anxiety"
    then tags ++ ["emotional"] else tags
  let tags :=
    if includes text "work" || includes text "job" || includes text "career"
    then tags ++ ["work"] else tags
  let tags :=
    if includes text "personal" || includes text "life" || includes text "family"
    then tags ++ ["personal"] else tags
  tags

/-! ## saveDecision -/

/-- White space and line terminators, the characters that `trim` strips. -/
def isTrimChar (c : Char) : Bool :=
  let n := c.toNat
  n == 0x09 || n == 0x0A || n == 0x0B || n == 0x0C || n == 0x0D || n == 0x20 ||
  n == 0xA0 || n == 0x1680 || (0x2000 ≤ n && n ≤ 0x200A) || n == 0x2028 ||
  n == 0x2029 || n == 0x202F || n == 0x205F || n == 0x3000 || n == 0xFEFF

/-- The method `s.trim()`. -/
def trim (s : String) : String :=
  ⟨((s.data.dropWhile isTrimChar).reverse.dropWhile isTrimChar).reverse⟩

/-- Worker of `split` on a one-character separator. -/
def splitOnChar (sep : Char) : List Char → List (List Char)
  | [] => [[]]
  | c :: cs =>
    if c = sep then [] :: splitOnChar sep cs
    else
      match splitOnChar sep cs with
      | [] => [[c]]
      | w :: ws => (c :: w) :: ws

/-- Line 166: the user tags, `tagsInput.split(',')` trimmed, empty pieces dropped. -/
def parseTags (tagsInput : String) : List String :=
  if truthy tagsInput then
    (((splitOnChar ',' tagsInput.data).map String.mk).map trim).filter truthy
  else []

/-- Insertion of the values into a `Set`, in order: a value already present is
skipped, a new one is appended. -/
def setInsertAll : List String → List String → List String
  | seen, [] => seen
  | seen, x :: xs => if x ∈ seen then setInsertAll seen xs else setInsertAll (seen ++ [x]) xs

/-- Line 183: `[...new Set([...tags, ...autoTags])]`. -/
def mergeTags (tags autoTags : List String) : List String :=
  setInsertAll [] (tags ++ autoTags)

/-- The values of the capture form. `emotionalState` is the result of `parseInt`
on the slider value, `none` standing for `NaN`. -/
structure CaptureForm where
  tags : String
  title : String
  intent : String
  constraints : String
  alternatives : String
  finalDecision : String
  reasoning : String
  emotionalState : Option Int
deriving DecidableEq, Repr

/-- The record that `saveDecision` builds (lines 164-191). The clock is read
three times: `idMs` is `Date.now()`, `timestampMs` is `new Date().getTime()` and
`dateText` is the locale rendering of a third `new Date()`. -/
def buildDecision (lc : String → String) (idMs timestampMs : Int) (dateText : String)
    (form : CaptureForm) : Decision :=
  let tags := parseTags form.tags
  let autoTags := analyzeContentForTags lc form.constraints form.reasoning
  { id := idMs
    title := trim form.title
    intent := trim form.intent
    constraints := trim form.constraints
    alternatives := trim form.alternatives
    finalDecision := trim form.finalDecision
    reasoning := trim form.reasoning
    emotionalState := form.emotionalState
    tags := some (mergeTags tags autoTags)
    timestamp := timestampMs
    date := dateText }

/-- The method `DecisionManager.addDecision`: the record is pushed at the end. -/
def addDecision (store : List Decision) (decision : Decision) : List Decision :=
  store ++ [decision]

/-- The function `saveDecision`, as a transition of the stored collection. -/
def saveDecision (lc : String → String) (idMs timestampMs : Int) (dateText : String)
    (form : CaptureForm) (store : List Decision) : List Decision :=
  addDecision store (buildDecision lc idMs timestampMs dateText form)

/-! ## findSimilarDecisions -/

/-- The class `\w` of a regular expression without flags: `[A-Za-z0-9_]`. -/
def isWordChar (c : Char) : Bool :=
  let n := c.toNat
  (65 ≤ n && n ≤ 90) || (97 ≤ n && n ≤ 122) || (48 ≤ n && n ≤ 57) || n == 95

/-- Worker of `split(/\W+/)`; `inSep` records that the previous character was
part of a separator run, which the greedy `\W+` swallows in one match. -/
def splitNonWordAux : Bool → List Char → List (List Char)
  | _, [] => [[]]
  | inSep, c :: cs =>
    if isWordChar c then
      match splitNonWordAux false cs with
      | [] => [[c]]
      | w :: ws => (c :: w) :: ws
    else if inSep then splitNonWordAux true cs
    else [] :: splitNonWordAux true cs

/-- The method `s.split(/\W+/)`: the pieces between maximal runs of non-word
characters, with an empty piece before a leading run and after a trailing one. -/
def splitNonWord (s : String) : List String :=
  (splitNonWordAux false s.data).map String.mk

/-- The pieces `title.toLowerCase().split(/\W+/)`. -/
def titleWords (lc : String → String) (title : String) : List String :=
  splitNonWord (lc title)

/-- Lines 1138-1150: the similarity score of `decisionA` and `decisionB`. -/
def similarity (lc : String → String) (decisionA decisionB : Decision) : Nat :=
  let similarity : Nat := 0
  let similarity :=
    match decisionA.tags, decisionB.tags with
    | some tagsA, some tagsB =>
      let commonTags := tagsA.filter (fun tag => tagsB.contains tag)
      similarity + commonTags.length * 10
    | _, _ => similarity
  let titleAWords := titleWords lc decisionA.title
  let titleBWords := titleWords lc decisionB.title
  let commonTitleWords := titleBWords.filter (fun word => titleAWords.contains word)
  similarity + commonTitleWords.length * 5

/-- One iteration of the inner loop (lines 1133-1155) on `(cluster, processed)`. -/
def innerStep (lc : String → String) (decisionA : Decision)
    (st : List Nat × List Nat) (jb : Nat × Decision) : List Nat × List Nat :=
  if st.2.contains jb.1 then st
  else if similarity lc decisionA jb.2 ≥ 15 then (st.1 ++ [jb.1], st.2 ++ [jb.1])
  else st

/-- The inner loop `for (let j = i + 1; j < decisions.length; j++)`, started
with `cluster = [i]`. -/
def innerLoop (lc : String → String) (decisions : List Decision) (i : Nat)
    (decisionA : Decision) (processed : List Nat) : List Nat × List Nat :=
  (decisions.enum.drop (i + 1)).foldl (innerStep lc decisionA) ([i], processed)

/-- One iteration of the outer loop (lines 1127-1161) on `(clusters, processed)`. -/
def outerStep (lc : String → String) (decisions : List Decision)
    (st : List (List Nat) × List Nat) (ia : Nat × Decision) : List (List Nat) × List Nat :=
  if st.2.contains ia.1 then st
  else
    let r := innerLoop lc decisions ia.1 ia.2 st.2
    if r.1.length > 1 then (st.1 ++ [r.1], r.2 ++ [ia.1]) else (st.1, r.2)

/-- The function `findSimilarDecisions(decisions)`. -/
def findSimilarDecisions (lc : String → String) (decisions : List Decision) :
    List (List Nat) :=
  (decisions.enum.foldl (outerStep lc decisions) ([], [])).1

/-! ## Specification-side predicates

These follow the wording of the specification and are compared below with the
definitions taken from the code. -/

/-- Newest first: every earlier element has a timestamp at least that of every
later one. -/
def NewestFirst (l : List Decision) : Prop :=
  l.Pairwise (fun x y => y.timestamp ≤ x.timestamp)

/-- Specification wording of the search test: the lower-cased term is a substring
of the lower-cased title, intent, final decision or reasoning, or of some
lower-cased tag. -/
def SearchMatches (lc : String → String) (t : String) (d : Decision) : Prop :=
  (lc t).data <:+: (lc d.title).data ∨
  (lc t).data <:+: (lc d.intent).data ∨
  (lc t).data <:+: (lc d.finalDecision).data ∨
  (lc t).data <:+: (lc d.reasoning).data ∨
  ∃ tag ∈ d.tags.getD [], (lc t).data <:+: (lc tag).data

instance (lc : String → String) (t : String) (d : Decision) :
    Decidable (SearchMatches lc t d) := by
  unfold SearchMatches; infer_instance

/-- A timestamp that `new Date` accepts: at most 8.64e15 ms from the epoch. -/
def ValidTime (d : Decision) : Prop :=
  -8640000000000000 ≤ d.timestamp ∧ d.timestamp ≤ 8640000000000000

instance (d : Decision) : Decidable (ValidTime d) := by
  unfold ValidTime; infer_instance

/-- Specification table of the timeframe filter: the window in days, `none` for
`all`, an unset timeframe and any other value. -/
def timeframeDays (w : Option String) : Option Int :=
  if w = some "week" then some 7
  else if w = some "month" then some 30
  else if w = some "year" then some 365
  else none

/-- Specification wording of the timeframe test, on exact milliseconds: with a
window of `k` days the record has a valid date and `now - timestamp` is at most
`k` days. -/
def PassesTimeframe (now : Int) (w : Option String) (d : Decision) : Prop :=
  match timeframeDays w with
  | none => True
  | some k => ValidTime d ∧ now - d.timestamp ≤ k * 86400000

instance (now : Int) (w : Option String) (d : Decision) :
    Decidable (PassesTimeframe now w d) := by
  unfold PassesTimeframe
  cases timeframeDays w <;> infer_instance

/-- Specification wording of the tag test: some tag of the record equals `g`
ignoring letter case; a record without tags has none. -/
def HasTag (lc : String → String) (g : String) (d : Decision) : Prop :=
  ∃ tag ∈ d.tags.getD [], lc tag = lc g

instance (lc : String → String) (g : String) (d : Decision) : Decidable (HasTag lc g d) := by
  unfold HasTag; infer_instance

/-- Specification table of the tag classifier: each canonical tag with the
keywords of its family, in the order of the specification. -/
def tagRules : List (String × List String) :=
  [ ("time-sensitive", ["time", "deadline", "urgent"]),
    ("financial", ["money", "budget", "cost", "paid"]),
    ("learning", ["learn", "experience", "growth", "skill"]),
    ("emotional", ["stress", "emotional", "feeling", "anxiety"]),
    ("work", ["work", "job", "career"]),
    ("personal", ["personal", "life", "family"]) ]

/-- Specification wording: some keyword of the family is a substring of the text. -/
def FamilyMatches (text : String) (fam : String × List String) : Prop :=
  ∃ kw ∈ fam.2, kw.data <:+: text.data

instance (text : String) (fam : String × List String) : Decidable (FamilyMatches text fam) := by
  unfold FamilyMatches; infer_instance

/-- The words of a title: the non-empty pieces of its lower-cased split. -/
def words (lc : String → String) (title : String) : List String :=
  (titleWords lc title).filter (fun w => w != "")

/-- The distinct words of a title. -/
def distinctWords (lc : String → String) (title : String) : List String :=
  (words lc title).dedup

/-- The distinct tags that two records have in common. -/
def sharedTags (a b : Decision) : List String :=
  (a.tags.getD []).dedup.filter (fun t => decide (t ∈ b.tags.getD []))

/-- The distinct title words of `b` that are also title words of `a`. -/
def sharedTitleWords (lc : String → String) (a b : Decision) : List String :=
  (distinctWords lc b.title).filter (fun w => decide (w ∈ distinctWords lc a.title))

/-- Specification wording of the similarity: ten times the number of distinct
common tags plus five times the number of distinct common title words. -/
def specSimilarity (lc : String → String) (a b : Decision) : Nat :=
  10 * (sharedTags a b).length + 5 * (sharedTitleWords lc a b).length

/-! ## calculateSentimentScore -/

/-- The lexicon `positiveWords` of line 1096. -/
def positiveWords : List String :=
  ["good", "great", "excellent", "positive", "happy", "satisfied", "confident",
   "optimistic", "success", "win"]

/-- The lexicon `negativeWords` of line 1097. -/
def negativeWords : List String :=
  ["bad", "poor", "negative", "unhappy", "stressed", "anxious", "worried", "failure",
   "lose", "difficult"]

/-- An element of the array passed to `calculateSentimentScore`: a string, or a
record, for which `typeof text === 'object'` holds. -/
inductive SentimentItem where
  | text (s : String)
  | record (d : Decision)
deriving DecidableEq, Repr

/-- Lines 1100-1102: the text that is scored for an item. -/
def itemText : SentimentItem → String
  | SentimentItem.text s => s
  | SentimentItem.record d => d.reasoning ++ " " ++ d.constraints

/-- Lines 1104-1113: the running `score` of one text before the clamp. -/
def rawScore (lc : String → String) (text : String) : Int :=
  let text := lc text
  let score : Int := 50
  let score := positiveWords.foldl
    (fun score word => if includes text word then score + 5 else score) score
  let score := negativeWords.foldl
    (fun score word => if includes text word then score - 5 else score) score
  score

/-- The clamp `Math.max(0, Math.min(100, score))` of line 1115. -/
def clampScore (score : Int) : Int := max 0 (min 100 score)

/-- One turn of the `forEach` of lines 1099-1117 on `(totalScore, count)`. -/
def sentimentStep (lc : String → String) (acc : Int × Nat) (item : SentimentItem) :
    Int × Nat :=
  (acc.1 + clampScore (rawScore lc (itemText item)), acc.2 + 1)

/-- The function `calculateSentimentScore(texts)` on an array. The quotient
`totalScore / count` is the exact rational. -/
def calculateSentimentScore (lc : String → String) (texts : List SentimentItem) : ℚ :=
  if texts.length = 0 then 50
  else
    let acc := texts.foldl (sentimentStep lc) (0, 0)
    if acc.2 > 0 then (acc.1 : ℚ) / (acc.2 : ℚ) else 50

/-- Specification wording of "occurrence": the number of positions of `s` at
which `w` starts. -/
def occurrencesChars (w : List Char) : List Char → Nat
  | [] => if w.isEmpty then 1 else 0
  | c :: s => (if w.isPrefixOf (c :: s) then 1 else 0) + occurrencesChars w s

/-- The number of occurrences of the word `w` in the text `s`. -/
def occurrences (w s : String) : Nat := occurrencesChars w.data s.data

/-- Specification wording of the score of one text, counting every occurrence:
50 plus 5 per occurrence of a positive word minus 5 per occurrence of a negative
word in the lower-cased text, clamped to the range 0..100. -/
def specOccurrenceScore (lc : String → String) (text : String) : Int :=
  clampScore (50 + 5 * ((positiveWords.map (fun w => occurrences w (lc text))).sum : Nat)
    - 5 * ((negativeWords.map (fun w => occurrences w (lc text))).sum : Nat))

/-! ## The insight analyzers -/

/-- The text of an insight's `message`, kept as the template it is built from
together with the values that are interpolated into it, before they are
formatted by `Math.round` or `toFixed`. -/
inductive InsightMessage where
  | timePressure (timeDecisions total : Nat)
  | emotionalAlert (avgEmotionalState : Option ℚ)
  | recurringPatterns (clusters : Nat)
  | growthMindset (learningDecisions total : Nat)
  | confirmationBias (alternativeRatio : Option ℚ)
  | sunkCost (sunkCostIndicators : Nat)
  | emotionalDecisions (highEmotionDecisions total : Nat)
  | availabilityBias
  | documentation (avgReasoningLength : Option ℚ)
  | followUps
  | frameworks (frameworkUsed total : Nat)
  | decisionSpeed (quickDecisions total : Nat)
  | improvingSentiment
  | decliningSentiment
  | emotionGap (avgWorkEmotion avgPersonalEmotion : Option ℚ)
  | negativeConstraints
deriving DecidableEq, Repr

/-- An insight object `{title, message, type, confidence}`; `type` is absent
from the insights that are not warnings. -/
structure Insight where
  title : String
  message : InsightMessage
  type : Option String
  confidence : Nat
deriving DecidableEq, Repr

/-- The property `s.length` of a string: its number of UTF-16 code units. -/
def utf16Length (s : String) : Nat :=
  (s.data.map (fun c => if c.toNat < 65536 then 1 else 2)).sum

/-- The quotient `a / b` of two numbers, `none` standing for `NaN`. At every
place where the analyzers divide, a zero divisor comes with a zero dividend (an
empty sum or count), so the quotient by zero is `NaN` and never an infinity. -/
def numDiv (a : ℚ) (b : Int) : Option ℚ :=
  if b = 0 then none else some (a / (b : ℚ))

/-- The comparison `x < c`, false when `x` is `NaN`. -/
def numLt (x : Option ℚ) (c : ℚ) : Bool :=
  match x with
  | none => false
  | some v => decide (v < c)

/-- The comparison `Math.abs(x - y) > c`, false when `x` or `y` is `NaN`. -/
def absDiffGt (x y : Option ℚ) (c : ℚ) : Bool :=
  match x, y with
  | some v, some w => decide (|v - w| > c)
  | _, _ => false

/-- The value `d.emotionalState || 5`: a missing, `NaN` or zero state is 5. -/
def emotionOrDefault (d : Decision) : Int :=
  match d.emotionalState with
  | none => 5
  | some v => if v = 0 then 5 else v

/-- The sum `decisions.reduce((sum, d) => sum + (d.emotionalState || 5), 0)`. -/
def emotionSum (decisions : List Decision) : Int :=
  decisions.foldl (fun sum d => sum + emotionOrDefault d) 0

/-- The test `d.tags?.includes(tag)`, falsy when the record has no tags. -/
def tagsInclude (d : Decision) (tag : String) : Bool :=
  match d.tags with
  | none => false
  | some ts => ts.contains tag

/-- The function `analyzePatterns(decisions)`. The thresholds `length * 0.3` and
`length * 0.4` are taken in the rationals: for a count and a length below 2^53
the double-precision product compares with the count as the exact one does. -/
def analyzePatterns (lc : String → String) (decisions : List Decision) : List Insight :=
  let insights : List Insight := []
  let timeDecisions := (decisions.filter (fun d =>
    includes (lc d.constraints) "time" || tagsInclude d "time-sensitive")).length
  let insights :=
    if (timeDecisions : ℚ) > (decisions.length : ℚ) * 0.3 then
      insights ++ [{ title := "⏳ Time Pressure Pattern"
                     message := InsightMessage.timePressure timeDecisions decisions.length
                     type := none
                     confidence := 85 }]
    else insights
  let avgEmotionalState := numDiv (emotionSum decisions : ℚ) decisions.length
  let insights :=
    if numLt avgEmotionalState 4 then
      insights ++ [{ title := "😟 Emotional State Alert"
                     message := InsightMessage.emotionalAlert avgEmotionalState
                     type := some "warning"
                     confidence := 90 }]
    else insights
  let similarDecisions := findSimilarDecisions lc decisions
  let insights :=
    if similarDecisions.length > 0 then
      insights ++ [{ title := "🔄 Recurring Decision Patterns"
                     message := InsightMessage.recurringPatterns similarDecisions.length
                     type := none
                     confidence := 75 }]
    else insights
  let learningDecisions := (decisions.filter (fun d =>
    includes (lc d.reasoning) "learn" || tagsInclude d "learning")).length
  let insights :=
    if (learningDecisions : ℚ) > (decisions.length : ℚ) * 0.4 then
      insights ++ [{ title := "📚 Growth Mindset Detected"
                     message := InsightMessage.growthMindset learningDecisions decisions.length
                     type := none
                     confidence := 88 }]
    else insights
  insights

/-- The function `analyzeRecentPatterns(recentDecisions, allDecisions)`; the
result is the field `isolated`. -/
def analyzeRecentPatterns (recentDecisions allDecisions : List Decision) : Bool :=
  if recentDecisions.length < 3 || allDecisions.length < 10 then false
  else
    let recentEmotion := numDiv (emotionSum recentDecisions : ℚ) recentDecisions.length
    let historical := allDecisions.drop recentDecisions.length
    let historicalEmotion := numDiv (emotionSum historical : ℚ)
      ((allDecisions.length : Int) - (recentDecisions.length : Int))
    let recentTags := setInsertAll [] (recentDecisions.map (fun d => d.tags.getD [])).flatten
    let historicalTags := setInsertAll [] (historical.map (fun d => d.tags.getD [])).flatten
    let overlap := (recentTags.filter (fun tag => historicalTags.contains tag)).length
    let tagSimilarity : ℚ := (overlap : ℚ) / ((max recentTags.length 1 : Nat) : ℚ)
    absDiffGt recentEmotion historicalEmotion 2 && decide (tagSimilarity < 0.5)

/-- The function `detectBiases(decisions)`. -/
def detectBiases (lc : String → String) (decisions : List Decision) : List Insight :=
  let insights : List Insight := []
  let hasAlternatives := (decisions.filter (fun d =>
    truthy d.alternatives && decide (utf16Length d.alternatives > 50))).length
  let alternativeRatio := numDiv (hasAlternatives : ℚ) decisions.length
  let insights :=
    if numLt alternativeRatio 0.5 then
      insights ++ [{ title := "🔍 Potential Confirmation Bias"
                     message := InsightMessage.confirmationBias alternativeRatio
                     type := some "warning"
                     confidence := 80 }]
    else insights
  let sunkCostIndicators := (decisions.filter (fun d =>
    includes (lc d.reasoning) "already invested" ||
    includes (lc d.reasoning) "too late to change" ||
    includes (lc d.reasoning) "can\x27t waste")).length
  let insights :=
    if sunkCostIndicators > 0 then
      insights ++ [{ title := "💸 Sunk Cost Fallacy Alert"
                     message := InsightMessage.sunkCost sunkCostIndicators
                     type := some "danger"
                     confidence := 70 }]
    else insights
  let highEmotionDecisions := (decisions.filter (fun d =>
    match d.emotionalState with
    | none => false
    | some v => v != 0 && (decide (v ≤ 3) || decide (v ≥ 8)))).length
  let insights :=
    if (highEmotionDecisions : ℚ) > (decisions.length : ℚ) * 0.25 then
      insights ++ [{ title := "😤 Emotional Decision Making"
                     message := InsightMessage.emotionalDecisions highEmotionDecisions
                       decisions.length
                     type := some "warning"
                     confidence := 82 }]
    else insights
  let recentDecisions := arraySlice decisions 0 5
  let isolated := analyzeRecentPatterns recentDecisions decisions
  let insights :=
    if isolated then
      insights ++ [{ title := "📰 Availability Bias Warning"
                     message := InsightMessage.availabilityBias
                     type := none
                     confidence := 75 }]
    else insights
  insights

/-- The function `suggestImprovements(decisions)`. -/
def suggestImprovements (lc : String → String) (decisions : List Decision) : List Insight :=
  let insights : List Insight := []
  let avgReasoningLength := numDiv
    ((decisions.foldl (fun sum d => sum + utf16Length d.reasoning) 0 : Nat) : ℚ)
    decisions.length
  let insights :=
    if numLt avgReasoningLength 100 then
      insights ++ [{ title := "📝 Improve Documentation"
                     message := InsightMessage.documentation avgReasoningLength
                     type := none
                     confidence := 85 }]
    else insights
  let hasFollowUp := (decisions.filter (fun d => tagsInclude d "follow-up")).length
  let insights :=
    if (hasFollowUp : ℚ) < (decisions.length : ℚ) * 0.1 then
      insights ++ [{ title := "🔁 Add Decision Follow-ups"
                     message := InsightMessage.followUps
                     type := none
                     confidence := 90 }]
    else insights
  let frameworkUsed := (decisions.filter (fun d =>
    includes (lc d.reasoning) "framework" ||
    includes (lc d.reasoning) "process" ||
    includes (lc d.reasoning) "method")).length
  let insights :=
    if (frameworkUsed : ℚ) < (decisions.length : ℚ) * 0.2 then
      insights ++ [{ title := "⚙️ Use Decision Frameworks"
                     message := InsightMessage.frameworks frameworkUsed decisions.length
                     type := none
                     confidence := 88 }]
    else insights
  let quickDecisions := (decisions.filter (fun d =>
    includes (lc d.constraints) "quick" ||
    includes (lc d.constraints) "immediate")).length
  let insights :=
    if (quickDecisions : ℚ) > (decisions.length : ℚ) * 0.4 then
      insights ++ [{ title := "⏱️ Balance Decision Speed"
                     message := InsightMessage.decisionSpeed quickDecisions decisions.length
                     type := none
                     confidence := 83 }]
    else insights
  insights

/-- The function `analyzeSentiment(decisions)`. The two sentiment scores are
compared as exact rationals. -/
def analyzeSentiment (lc : String → String) (decisions : List Decision) : List Insight :=
  let insights : List Insight := []
  let recentSentiment :=
    calculateSentimentScore lc ((arraySlice decisions 0 5).map SentimentItem.record)
  let overallSentiment := calculateSentimentScore lc (decisions.map SentimentItem.record)
  let insights :=
    if recentSentiment > overallSentiment + 10 then
      insights ++ [{ title := "📈 Improving Decision Sentiment"
                     message := InsightMessage.improvingSentiment
                     type := none
                     confidence := 78 }]
    else if recentSentiment < overallSentiment - 10 then
      insights ++ [{ title := "📉 Declining Decision Sentiment"
                     message := InsightMessage.decliningSentiment
                     type := some "warning"
                     confidence := 76 }]
    else insights
  let workDecisions := decisions.filter (fun d => tagsInclude d "work")
  let personalDecisions := decisions.filter (fun d => tagsInclude d "personal")
  let insights :=
    if workDecisions.length > 0 && personalDecisions.length > 0 then
      let avgWorkEmotion := numDiv (emotionSum workDecisions : ℚ) workDecisions.length
      let avgPersonalEmotion :=
        numDiv (emotionSum personalDecisions : ℚ) personalDecisions.length
      if absDiffGt avgWorkEmotion avgPersonalEmotion 2 then
        insights ++ [{ title := "🏢 Work/Personal Emotion Gap"
                       message := InsightMessage.emotionGap avgWorkEmotion avgPersonalEmotion
                       type := none
                       confidence := 82 }]
      else insights
    else insights
  let highConstraintDecisions :=
    decisions.filter (fun d => decide (utf16Length d.constraints > 100))
  let insights :=
    if highConstraintDecisions.length > 0 then
      let constraintSentiment := calculateSentimentScore lc
        (highConstraintDecisions.map (fun d => SentimentItem.text d.constraints))
      if constraintSentiment < 40 then
        insights ++ [{ title := "🚧 Negative Constraint Language"
                       message := InsightMessage.negativeConstraints
                       type := some "warning"
                       confidence := 79 }]
      else insights
    else insights
  insights

/-- Specification wording: the record carries the tag `time-sensitive` or its
constraints mention time. -/
def TimePressured (lc : String → String) (d : Decision) : Prop :=
  "time-sensitive" ∈ d.tags.getD [] ∨ "time".data <:+: (lc d.constraints).data

instance (lc : String → String) (d : Decision) : Decidable (TimePressured lc d) := by
  unfold TimePressured; infer_instance

/-- The number of time-pressured records of a collection. -/
def timePressureCount (lc : String → String) (decisions : List Decision) : Nat :=
  decisions.countP (fun d => decide (TimePressured lc d))

/-- Specification wording: the emotional state is at most 3 or at least 8. -/
def HighEmotion (d : Decision) : Prop :=
  ∃ v, d.emotionalState = some v ∧ (v ≤ 3 ∨ 8 ≤ v)

instance (d : Decision) : Decidable (HighEmotion d) := by
  unfold HighEmotion
  cases d.emotionalState with
  | none => exact isFalse (by simp)
  | some v => exact decidable_of_iff (v ≤ 3 ∨ 8 ≤ v) (by simp)

/-- The emotional state is not zero and is at most 3 or at least 8. -/
def HighEmotionNonzero (d : Decision) : Prop :=
  ∃ v, d.emotionalState = some v ∧ v ≠ 0 ∧ (v ≤ 3 ∨ 8 ≤ v)

instance (d : Decision) : Decidable (HighEmotionNonzero d) := by
  unfold HighEmotionNonzero
  cases d.emotionalState with
  | none => exact isFalse (by simp)
  | some v => exact decidable_of_iff (v ≠ 0 ∧ (v ≤ 3 ∨ 8 ≤ v)) (by simp)

/-- The sum of the emotional states of a collection, a missing one counted 0. -/
def emotionTotal (decisions : List Decision) : Int :=
  (decisions.map (fun d => d.emotionalState.getD 0)).sum

/-- The sum of the emotional states with a zero or missing state counted as 5. -/
def emotionTotalZeroAsFive (decisions : List Decision) : Int :=
  (decisions.map (fun d =>
    if d.emotionalState = some 0 then 5 else d.emotionalState.getD 5)).sum

/-! ## importDecisions -/

/-- The outcome of `JSON.parse` on the imported file, as far as the import
distinguishes it: the text does not parse, the top-level value is not an array,
or it is an array of records. -/
inductive ImportedDocument where
  | unparsable
  | notArray
  | array (records : List Decision)
deriving DecidableEq, Repr

/-- The notification that `importDecisions` shows: the success message with the
number of new decisions, or the format error of the `catch` branch. -/
inductive ImportNotice where
  | success (count : Nat)
  | error
deriving DecidableEq, Repr

/-- The handler of `importDecisions` (lines 1441-1467) as a transition of the
stored collection, with the notification it shows. -/
def importDecisions (store : List Decision) (doc : ImportedDocument) :
    List Decision × ImportNotice :=
  match doc with
  | ImportedDocument.unparsable => (store, ImportNotice.error)
  | ImportedDocument.notArray => (store, ImportNotice.error)
  | ImportedDocument.array importedDecisions =>
    let existingDecisions := store
    let existingIds := existingDecisions.map (fun d => d.id)
    let newDecisions := importedDecisions.filter (fun d => !existingIds.contains d.id)
    let updatedDecisions := existingDecisions ++ newDecisions
    (updatedDecisions, ImportNotice.success newDecisions.length)

/-! ## DecisionManager: reading and changing the stored collection -/

/-- A value that `JSON.parse` can return for the text kept under the storage
key, as far as `getDecisions` distinguishes it; an array is an array of
records. -/
inductive StoredJson where
  | null
  | bool (b : Bool)
  | number (x : ℚ)
  | string (s : String)
  | object
  | array (records : List Decision)
deriving DecidableEq, Repr

/-- Truthiness of a parsed value: `null`, `false`, `0` and the empty string are
falsy, every object and array is truthy. -/
def jsonTruthy : StoredJson → Bool
  | StoredJson.null => false
  | StoredJson.bool b => b
  | StoredJson.number x => decide (x ≠ 0)
  | StoredJson.string s => truthy s
  | StoredJson.object => true
  | StoredJson.array _ => true

/-- What is kept under the key `continuumDecisions`: nothing, or a text together
with what `JSON.parse` makes of it, `none` when the text does not parse. -/
inductive PersistedValue where
  | absent
  | text (parsed : Option StoredJson)
deriving DecidableEq, Repr

/-- The failure of `JSON.parse` on a text that is not JSON. -/
inductive StorageError where
  | syntaxError
deriving DecidableEq, Repr

/-- The method `DecisionManager.getDecisions`, line 63:
`JSON.parse(localStorage.getItem(key)) || []`. For a missing key `getItem`
returns `null`, which `JSON.parse` reads as the text `null`. -/
def getDecisions (v : PersistedValue) : Except StorageError StoredJson :=
  let parsed : Option StoredJson :=
    match v with
    | PersistedValue.absent => some StoredJson.null
    | PersistedValue.text p => p
  match parsed with
  | none => Except.error StorageError.syntaxError
  | some j => if jsonTruthy j then Except.ok j else Except.ok (StoredJson.array [])

/-- The method `DecisionManager.deleteDecision(id)` on the stored array. -/
def deleteDecision (store : List Decision) (id : Int) : List Decision :=
  store.filter (fun d => d.id != id)

/-- The argument `updatedData` of `updateDecision`: for every field, the value
that the object supplies for it, `none` when the object has no such key. -/
structure DecisionUpdate where
  id : Option Int
  title : Option String
  intent : Option String
  constraints : Option String
  alternatives : Option String
  finalDecision : Option String
  reasoning : Option String
  emotionalState : Option (Option Int)
  tags : Option (Option (List String))
  timestamp : Option Int
  date : Option String
deriving DecidableEq, Repr

/-- The spread `{ ...decision, ...updatedData }`: a supplied field overrides the
old one. -/
def mergeDecision (d : Decision) (u : DecisionUpdate) : Decision :=
  { id := u.id.getD d.id
    title := u.title.getD d.title
    intent := u.intent.getD d.intent
    constraints := u.constraints.getD d.constraints
    alternatives := u.alternatives.getD d.alternatives
    finalDecision := u.finalDecision.getD d.finalDecision
    reasoning := u.reasoning.getD d.reasoning
    emotionalState := u.emotionalState.getD d.emotionalState
    tags := u.tags.getD d.tags
    timestamp := u.timestamp.getD d.timestamp
    date := u.date.getD d.date }

/-- The method `xs.findIndex(p)`, `none` standing for the result `-1`. -/
def findIndex {α : Type} (p : α → Bool) : List α → Option Nat
  | [] => none
  | a :: l => if p a then some 0 else (findIndex p l).map (fun i => i + 1)

/-- The method `DecisionManager.updateDecision(id, updatedData)` on the stored
array. -/
def updateDecision (store : List Decision) (id : Int) (updatedData : DecisionUpdate) :
    List Decision :=
  match findIndex (fun d => d.id == id) store with
  | none => store
  | some index =>
    match store[index]? with
    | none => store
    | some d => store.set index (mergeDecision d updatedData)

/-- The document that `exportDecisions` writes, as `JSON.parse` reads it back:
`JSON.stringify` of the stored array. -/
def exportDecisions (store : List Decision) : ImportedDocument :=
  ImportedDocument.array store

/-- The five records with the newest timestamps, as `loadRecentDecisions` takes
them: sorted by timestamp descending, then `slice(0, 5)`. -/
def newestFive (decisions : List Decision) : List Decision :=
  arraySlice (arraySort byTimestampDesc decisions) 0 5

/-! ## Lemmas on `includes` -/

theorem includesChars_iff (s t : List Char) : includesChars s t = true ↔ t <:+: s := by
  induction s with
  | nil =>
    cases t <;> simp [includesChars]
  | cons c s ih =>
    simp only [includesChars, Bool.or_eq_true, List.isPrefixOf_iff_prefix, ih]
    rw [List.infix_cons_iff]

theorem includes_iff (s t : String) : includes s t = true ↔ t.data <:+: s.data :=
  includesChars_iff s.data t.data

/-! ## Lemmas on `arraySort` -/

theorem insertByCmp_perm {α : Type} (cmp : α → α → Int) (a : α) (l : List α) :
    (insertByCmp cmp a l).Perm (a :: l) := by
  induction l with
  | nil => simp [insertByCmp]
  | cons b l ih =>
    simp only [insertByCmp]
    split
    · exact List.Perm.refl _
    · exact (List.Perm.cons b ih).trans (List.Perm.swap a b l)

theorem arraySort_perm {α : Type} (cmp : α → α → Int) (l : List α) :
    (arraySort cmp l).Perm l := by
  induction l with
  | nil => simp [arraySort]
  | cons a l ih =>
    simp only [arraySort]
    exact (insertByCmp_perm cmp a _).trans (List.Perm.cons a ih)

theorem insertByCmp_newestFirst (a : Decision) (l : List Decision) (hl : NewestFirst l) :
    NewestFirst (insertByCmp byTimestampDesc a l) := by
  unfold NewestFirst at *
  induction l with
  | nil => simp [insertByCmp]
  | cons b l ih =>
    simp only [insertByCmp]
    rw [List.pairwise_cons] at hl
    split
    · rename_i h
      have hab : b.timestamp ≤ a.timestamp := by
        simp only [byTimestampDesc] at h; omega
      refine List.Pairwise.cons ?_ (List.Pairwise.cons hl.1 hl.2)
      intro x hx
      rcases List.mem_cons.1 hx with rfl | hx
      · exact hab
      · exact le_trans (hl.1 x hx) hab
    · rename_i h
      have hab : a.timestamp ≤ b.timestamp := by
        simp only [byTimestampDesc] at h; omega
      refine List.Pairwise.cons ?_ (ih hl.2)
      intro x hx
      rcases List.mem_cons.1 ((insertByCmp_perm _ a l).subset hx) with rfl | hx
      · exact hab
      · exact hl.1 x hx

theorem arraySort_newestFirst (l : List Decision) :
    NewestFirst (arraySort byTimestampDesc l) := by
  induction l with
  | nil => simp [arraySort, NewestFirst]
  | cons a l ih => exact insertByCmp_newestFirst a _ ih

theorem insertByCmp_of_head (a : Decision) (l : List Decision)
    (h : ∀ x ∈ l, x.timestamp ≤ a.timestamp) :
    insertByCmp byTimestampDesc a l = a :: l := by
  cases l with
  | nil => rfl
  | cons b l =>
    have hb := h b (List.mem_cons_self b l)
    simp only [insertByCmp, byTimestampDesc]
    rw [if_pos (by omega)]

theorem insertByCmp_filter (p : Decision → Bool) (a : Decision) (l : List Decision)
    (hl : NewestFirst l) :
    (insertByCmp byTimestampDesc a l).filter p =
      if p a then insertByCmp byTimestampDesc a (l.filter p) else l.filter p := by
  induction l with
  | nil => simp [insertByCmp, List.filter_cons]
  | cons b l ih =>
    have hl' := hl
    unfold NewestFirst at hl
    rw [List.pairwise_cons] at hl
    simp only [insertByCmp]
    by_cases h : byTimestampDesc a b ≤ 0
    · rw [if_pos h]
      have hab : b.timestamp ≤ a.timestamp := by
        simp only [byTimestampDesc] at h; omega
      have hall : ∀ x ∈ (b :: l).filter p, x.timestamp ≤ a.timestamp := by
        intro x hx
        rcases List.mem_cons.1 (List.mem_filter.1 hx).1 with rfl | hx
        · exact hab
        · exact le_trans (hl.1 x hx) hab
      rw [insertByCmp_of_head a _ hall]
      by_cases hpa : p a = true
      · simp [List.filter_cons, hpa]
      · simp [List.filter_cons, hpa]
    · rw [if_neg h]
      by_cases hpb : p b = true
      · rw [List.filter_cons_of_pos hpb, List.filter_cons_of_pos hpb, ih hl.2]
        by_cases hpa : p a = true
        · simp only [hpa, if_true, insertByCmp, if_neg h]
        · simp only [hpa, Bool.false_eq_true, if_false]
      · rw [List.filter_cons_of_neg hpb, List.filter_cons_of_neg hpb, ih hl.2]

theorem arraySort_filter (p : Decision → Bool) (l : List Decision) :
    (arraySort byTimestampDesc l).filter p = arraySort byTimestampDesc (l.filter p) := by
  induction l with
  | nil => simp [arraySort]
  | cons a l ih =>
    simp only [arraySort]
    rw [insertByCmp_filter p a _ (arraySort_newestFirst l), ih]
    by_cases hpa : p a = true
    · simp [List.filter_cons, hpa, arraySort]
    · simp [List.filter_cons, hpa]

/-! ## Lemmas on the filter stages -/

theorem filter_swap (p q : Decision → Bool) (l : List Decision) :
    (l.filter p).filter q = (l.filter q).filter p := by
  simp only [List.filter_filter, Bool.and_comm]

theorem applyTimeframe_filter (now : Int) (w : Option String) (p : Decision → Bool)
    (l : List Decision) :
    applyTimeframe now w (l.filter p) = (applyTimeframe now w l).filter p := by
  unfold applyTimeframe
  cases w with
  | none => rfl
  | some tf =>
    dsimp only
    split
    · exact filter_swap _ _ _
    · rfl

theorem applyTag_filter (lc : String → String) (g : Option String) (p : Decision → Bool)
    (l : List Decision) :
    applyTag lc g (l.filter p) = (applyTag lc g l).filter p := by
  unfold applyTag
  cases g with
  | none => rfl
  | some tf =>
    dsimp only
    split
    · exact filter_swap _ _ _
    · rfl

theorem truthy_iff (s : String) : truthy s = true ↔ s ≠ "" := by
  simp [truthy]

theorem applySearch_empty (lc : String → String) (l : List Decision) :
    applySearch lc "" l = l := by
  simp [applySearch, truthy]

theorem applySearch_nonempty (lc : String → String) (t : String) (ht : t ≠ "")
    (l : List Decision) :
    applySearch lc t l = l.filter (searchPred lc (lc t)) := by
  simp [applySearch, (truthy_iff t).2 ht]

theorem searchPred_iff (lc : String → String) (t : String) (d : Decision) :
    searchPred lc (lc t) d = true ↔ SearchMatches lc t d := by
  unfold searchPred SearchMatches
  cases h : d.tags with
  | none => simp [includes_iff, or_assoc]
  | some ts => simp [includes_iff, List.any_eq_true, or_assoc]

theorem searchPred_eq_decide (lc : String → String) (t : String) :
    searchPred lc (lc t) = fun d => decide (SearchMatches lc t d) := by
  funext d
  by_cases h : SearchMatches lc t d
  · simp [h, (searchPred_iff lc t d).2 h]
  · have : searchPred lc (lc t) d ≠ true := fun hh => h ((searchPred_iff lc t d).1 hh)
    simp [h, this]

/-- Search commutes with the rest of the pipeline. -/
theorem getFilteredDecisions_search (lc : String → String) (now : Int)
    (store : List Decision) (f : Filter) (t : String) (ht : t ≠ "") :
    getFilteredDecisions lc now store f t =
      (getFilteredDecisions lc now store f "").filter (searchPred lc (lc t)) := by
  unfold getFilteredDecisions
  rw [applySearch_empty, applySearch_nonempty lc t ht, applyTimeframe_filter,
    applyTag_filter, arraySort_filter]

/-! ## The query pipeline: order, completeness, search -/

/-- C1: whatever the stored collection, the filter and the search term, the
result of `getFilteredDecisions` is ordered newest first: every adjacent pair
`result[i], result[i+1]` satisfies `result[i].timestamp ≥ result[i+1].timestamp`. -/
theorem getFilteredDecisions_adjacent_desc (lc : String → String) (now : Int)
    (store : List Decision) (f : Filter) (t : String) :
    List.Chain' (fun x y => x.timestamp ≥ y.timestamp)
      (getFilteredDecisions lc now store f t) := by
  have h := arraySort_newestFirst
    (applyTag lc f.tag (applyTimeframe now f.timeframe (applySearch lc t store)))
  exact List.Pairwise.chain' h

/-- C2: with timeframe `all`, tag `all` and the empty search term the result is
a permutation of the stored collection (each record occurs exactly as often as
in the store) and is sorted by timestamp descending. -/
theorem getFilteredDecisions_all_perm (lc : String → String) (now : Int)
    (store : List Decision) :
    (getFilteredDecisions lc now store ⟨some "all", some "all"⟩ "").Perm store ∧
    (∀ d, (getFilteredDecisions lc now store ⟨some "all", some "all"⟩ "").count d
        = store.count d) ∧
    (getFilteredDecisions lc now store ⟨some "all", some "all"⟩ "").Pairwise
      (fun x y => x.timestamp ≥ y.timestamp) := by
  have hperm : (getFilteredDecisions lc now store ⟨some "all", some "all"⟩ "").Perm store := by
    have h : getFilteredDecisions lc now store ⟨some "all", some "all"⟩ ""
        = arraySort byTimestampDesc store := by
      simp [getFilteredDecisions, applySearch, applyTimeframe, applyTag, truthy]
    rw [h]
    exact arraySort_perm _ _
  refine ⟨hperm, fun d => hperm.count_eq d, ?_⟩
  exact arraySort_newestFirst _

/-- C3: for a non-empty search term `t` the result is exactly the sub-sequence
of the result for the empty term whose records have the lower-cased `t` as a
substring of the lower-cased title, intent, final decision or reasoning or of a
lower-cased tag; the test ignores `constraints` and `alternatives`, every
returned record passes it, and it depends on `t` and on the fields only through
their lower-cased forms. -/
theorem getFilteredDecisions_search_spec (lc : String → String) (now : Int)
    (store : List Decision) (f : Filter) (t : String) (ht : t ≠ "") :
    getFilteredDecisions lc now store f t =
      (getFilteredDecisions lc now store f "").filter
        (fun d => decide (SearchMatches lc t d)) ∧
    (∀ d, d ∈ getFilteredDecisions lc now store f t → SearchMatches lc t d) ∧
    (∀ (d : Decision) (c a : String),
      SearchMatches lc t { d with constraints := c, alternatives := a } ↔
        SearchMatches lc t d) ∧
    (∀ t2, t2 ≠ "" → lc t2 = lc t →
      getFilteredDecisions lc now store f t2 = getFilteredDecisions lc now store f t) ∧
    (∀ d d2 : Decision, lc d.title = lc d2.title → lc d.intent = lc d2.intent →
      lc d.finalDecision = lc d2.finalDecision → lc d.reasoning = lc d2.reasoning →
      (d.tags.getD []).map lc = (d2.tags.getD []).map lc →
      (SearchMatches lc t d ↔ SearchMatches lc t d2)) := by
  have hmain := getFilteredDecisions_search lc now store f t ht
  rw [searchPred_eq_decide] at hmain
  refine ⟨hmain, ?_, ?_, ?_, ?_⟩
  · intro d hd
    rw [hmain] at hd
    simpa using (List.mem_filter.1 hd).2
  · intro d c a
    rfl
  · intro t2 ht2 hlc
    rw [getFilteredDecisions_search lc now store f t2 ht2,
      getFilteredDecisions_search lc now store f t ht, hlc]
  · intro d d2 h1 h2 h3 h4 h5
    have htags : (∃ tag ∈ d.tags.getD [], (lc t).data <:+: (lc tag).data) ↔
        (∃ tag ∈ d2.tags.getD [], (lc t).data <:+: (lc tag).data) := by
      have key : ∀ l : List String,
          (∃ tag ∈ l, (lc t).data <:+: (lc tag).data) ↔
            ∃ s ∈ l.map lc, (lc t).data <:+: s.data := by
        intro l; simp
      rw [key, key, h5]
    unfold SearchMatches
    rw [h1, h2, h3, h4, htags]

/-- Witness for C3: the term `WORK` finds the record titled `My work plan` and
not the one that mentions work only in its constraints. -/
theorem getFilteredDecisions_search_spec_witness :
    "WORK" ≠ "" ∧
    getFilteredDecisions asciiLower 0
      [ { id := 1, title := "My work plan", intent := "", constraints := "",
          alternatives := "", finalDecision := "", reasoning := "",
          emotionalState := none, tags := none, timestamp := 1, date := "" },
        { id := 2, title := "Other", intent := "", constraints := "work",
          alternatives := "work", finalDecision := "", reasoning := "",
          emotionalState := none, tags := none, timestamp := 2, date := "" } ]
      ⟨none, none⟩ "WORK" =
    [ { id := 1, title := "My work plan", intent := "", constraints := "",
        alternatives := "", finalDecision := "", reasoning := "",
        emotionalState := none, tags := none, timestamp := 1, date := "" } ] :=
  ⟨by decide,
   ((getFilteredDecisions_search_spec asciiLower 0 _ ⟨none, none⟩ "WORK" (by decide)).1).trans
     (by decide)⟩


/-! ## The timeframe and tag filters -/

theorem diffDays_le (x k : Int) :
    ((x : ℚ) / (msPerDay : ℚ) ≤ (k : ℚ)) ↔ x ≤ k * 86400000 := by
  have h : (msPerDay : ℚ) = 86400000 := by norm_num [msPerDay]
  rw [h, div_le_iff₀ (by norm_num)]
  exact_mod_cast Iff.rfl

theorem newDate_valid (d : Decision) (h : ValidTime d) :
    newDate d.timestamp = some d.timestamp := by
  unfold ValidTime at h
  simp only [newDate, maxTimeValue]
  exact if_pos h

theorem newDate_invalid (d : Decision) (h : ¬ ValidTime d) :
    newDate d.timestamp = none := by
  unfold ValidTime at h
  simp only [newDate, maxTimeValue]
  exact if_neg h

theorem timeframePred_window (now : Int) (tf : String) (k : Int) (d : Decision)
    (hk : (tf = "week" ∧ k = 7) ∨ (tf = "month" ∧ k = 30) ∨ (tf = "year" ∧ k = 365)) :
    timeframePred now tf d = decide (ValidTime d ∧ now - d.timestamp ≤ k * 86400000) := by
  by_cases hv : ValidTime d
  · have h7 := diffDays_le (now - d.timestamp) 7
    have h30 := diffDays_le (now - d.timestamp) 30
    have h365 := diffDays_le (now - d.timestamp) 365
    simp only [Int.cast_ofNat, Int.cast_sub] at h7 h30 h365
    rcases hk with ⟨rfl, rfl⟩ | ⟨rfl, rfl⟩ | ⟨rfl, rfl⟩ <;>
      simp [timeframePred, newDate_valid d hv, hv, h7, h30, h365]
  · rcases hk with ⟨rfl, rfl⟩ | ⟨rfl, rfl⟩ | ⟨rfl, rfl⟩ <;>
      simp [timeframePred, newDate_invalid d hv, hv]

theorem timeframePred_other (now : Int) (tf : String) (d : Decision)
    (h1 : tf ≠ "week") (h2 : tf ≠ "month") (h3 : tf ≠ "year") :
    timeframePred now tf d = true := by
  unfold timeframePred
  cases newDate d.timestamp <;> simp [h1, h2, h3]

theorem applyTimeframe_eq_filter (now : Int) (w : Option String) (l : List Decision) :
    applyTimeframe now w l = l.filter (fun d => decide (PassesTimeframe now w d)) := by
  cases w with
  | none => simp [applyTimeframe, PassesTimeframe, timeframeDays]
  | some tf =>
    by_cases h1 : tf = "week"
    · subst h1
      have : ∀ d, timeframePred now "week" d =
          decide (PassesTimeframe now (some "week") d) := fun d => by
        rw [timeframePred_window now "week" 7 d (Or.inl ⟨rfl, rfl⟩)]
        simp [PassesTimeframe, timeframeDays]
      simp only [applyTimeframe, truthy]
      rw [if_pos (by decide)]
      exact List.filter_congr (fun d _ => this d)
    by_cases h2 : tf = "month"
    · subst h2
      have : ∀ d, timeframePred now "month" d =
          decide (PassesTimeframe now (some "month") d) := fun d => by
        rw [timeframePred_window now "month" 30 d (Or.inr (Or.inl ⟨rfl, rfl⟩))]
        simp [PassesTimeframe, timeframeDays]
      simp only [applyTimeframe, truthy]
      rw [if_pos (by decide)]
      exact List.filter_congr (fun d _ => this d)
    by_cases h3 : tf = "year"
    · subst h3
      have : ∀ d, timeframePred now "year" d =
          decide (PassesTimeframe now (some "year") d) := fun d => by
        rw [timeframePred_window now "year" 365 d (Or.inr (Or.inr ⟨rfl, rfl⟩))]
        simp [PassesTimeframe, timeframeDays]
      simp only [applyTimeframe, truthy]
      rw [if_pos (by decide)]
      exact List.filter_congr (fun d _ => this d)
    have hp : ∀ d, decide (PassesTimeframe now (some tf) d) = true := fun d => by
      simp [PassesTimeframe, timeframeDays, h1, h2, h3]
    have hf : l.filter (fun d => decide (PassesTimeframe now (some tf) d)) = l := by
      rw [List.filter_eq_self]; exact fun d _ => hp d
    rw [hf]
    simp only [applyTimeframe]
    split
    · rw [List.filter_eq_self]
      exact fun d _ => timeframePred_other now tf d h1 h2 h3
    · rfl

theorem getFilteredDecisions_timeframe (lc : String → String) (now : Int)
    (store : List Decision) (w g : Option String) (t : String) :
    getFilteredDecisions lc now store ⟨w, g⟩ t =
      (getFilteredDecisions lc now store ⟨some "all", g⟩ t).filter
        (fun d => decide (PassesTimeframe now w d)) := by
  unfold getFilteredDecisions
  dsimp only
  rw [applyTimeframe_eq_filter now w, applyTag_filter, arraySort_filter]
  have : applyTimeframe now (some "all") (applySearch lc t store) = applySearch lc t store := by
    simp [applyTimeframe]
  rw [this]

/-- C4, as amended: with timeframe `week`, `month` or `year` a record of the
`all` result is kept exactly when its timestamp is a valid date value (at most
8.64e15 ms from the epoch) and `now - timestamp` is at most 7, 30 or 365 days
(604,800,000 ms, 2,592,000,000 ms, 31,536,000,000 ms); with timeframe `all` or
unset the result is a rearrangement of the records that pass the search and tag
stages, so none is dropped because of its timestamp. -/
theorem getFilteredDecisions_timeframe_spec (lc : String → String) (now : Int)
    (store : List Decision) (g : Option String) (t : String) :
    getFilteredDecisions lc now store ⟨some "week", g⟩ t =
      (getFilteredDecisions lc now store ⟨some "all", g⟩ t).filter
        (fun d => decide (ValidTime d ∧ now - d.timestamp ≤ 604800000)) ∧
    getFilteredDecisions lc now store ⟨some "month", g⟩ t =
      (getFilteredDecisions lc now store ⟨some "all", g⟩ t).filter
        (fun d => decide (ValidTime d ∧ now - d.timestamp ≤ 2592000000)) ∧
    getFilteredDecisions lc now store ⟨some "year", g⟩ t =
      (getFilteredDecisions lc now store ⟨some "all", g⟩ t).filter
        (fun d => decide (ValidTime d ∧ now - d.timestamp ≤ 31536000000)) ∧
    getFilteredDecisions lc now store ⟨none, g⟩ t =
      getFilteredDecisions lc now store ⟨some "all", g⟩ t ∧
    (getFilteredDecisions lc now store ⟨some "all", g⟩ t).Perm
      (applyTag lc g (applySearch lc t store)) := by
  refine ⟨?_, ?_, ?_, ?_, ?_⟩
  · rw [getFilteredDecisions_timeframe lc now store (some "week") g t]
    apply List.filter_congr
    intro d _
    simp [PassesTimeframe, timeframeDays]
  · rw [getFilteredDecisions_timeframe lc now store (some "month") g t]
    apply List.filter_congr
    intro d _
    simp [PassesTimeframe, timeframeDays]
  · rw [getFilteredDecisions_timeframe lc now store (some "year") g t]
    apply List.filter_congr
    intro d _
    simp [PassesTimeframe, timeframeDays]
  · simp [getFilteredDecisions, applyTimeframe]
  · have h : getFilteredDecisions lc now store ⟨some "all", g⟩ t =
        arraySort byTimestampDesc (applyTag lc g (applySearch lc t store)) := by
      simp [getFilteredDecisions, applyTimeframe]
    rw [h]
    exact arraySort_perm _ _

/-- C4, counterexample to the claim as stated: at `now = 1700000000000` a record
stamped `9000000000000000` has `now - timestamp` far below 7 days, yet the
timeframe `week` drops it, because `new Date(9000000000000000)` is an Invalid
Date and the comparison with `NaN` is false. -/
theorem getFilteredDecisions_timeframe_counterexample :
    (1700000000000 : Int) - 9000000000000000 ≤ 604800000 ∧
    getFilteredDecisions asciiLower 1700000000000
      [ { id := 1, title := "Far future", intent := "", constraints := "",
          alternatives := "", finalDecision := "", reasoning := "",
          emotionalState := none, tags := none, timestamp := 9000000000000000,
          date := "" } ]
      ⟨some "week", none⟩ "" = [] ∧
    getFilteredDecisions asciiLower 1700000000000
      [ { id := 1, title := "Far future", intent := "", constraints := "",
          alternatives := "", finalDecision := "", reasoning := "",
          emotionalState := none, tags := none, timestamp := 9000000000000000,
          date := "" } ]
      ⟨some "all", none⟩ "" =
      [ { id := 1, title := "Far future", intent := "", constraints := "",
          alternatives := "", finalDecision := "", reasoning := "",
          emotionalState := none, tags := none, timestamp := 9000000000000000,
          date := "" } ] := by
  refine ⟨by decide, by decide, by decide⟩

theorem tagPred_eq_decide (lc : String → String) (g : String) :
    tagPred lc g = fun d => decide (HasTag lc g d) := by
  funext d
  have key : ∀ o : Option (List String),
      (match o with
        | none => false
        | some ts => ts.any (fun t => lc t == lc g)) = true ↔
      ∃ tag ∈ o.getD [], lc tag = lc g := by
    intro o
    cases o with
    | none => simp
    | some ts => simp [List.any_eq_true]
  have h : tagPred lc g d = true ↔ HasTag lc g d := key d.tags
  by_cases hd : HasTag lc g d
  · simp [hd, h.2 hd]
  · have : tagPred lc g d ≠ true := fun hh => hd (h.1 hh)
    simp [hd, this]

theorem getFilteredDecisions_tag (lc : String → String) (now : Int)
    (store : List Decision) (w : Option String) (g : String) (t : String)
    (hall : g ≠ "all") (hne : g ≠ "") :
    getFilteredDecisions lc now store ⟨w, some g⟩ t =
      (getFilteredDecisions lc now store ⟨w, some "all"⟩ t).filter
        (fun d => decide (HasTag lc g d)) := by
  unfold getFilteredDecisions
  dsimp only
  have h1 : ∀ l, applyTag lc (some g) l = l.filter (tagPred lc g) := by
    intro l
    simp [applyTag, (truthy_iff g).2 hne, hall]
  have h2 : ∀ l, applyTag lc (some "all") l = l := by
    intro l
    simp [applyTag]
  rw [h1, h2, arraySort_filter, tagPred_eq_decide]

theorem mem_getFilteredDecisions_all (lc : String → String) (now : Int)
    (store : List Decision) (t : String) (d : Decision) :
    d ∈ getFilteredDecisions lc now store ⟨some "all", some "all"⟩ t ↔
      d ∈ store ∧ (t = "" ∨ SearchMatches lc t d) := by
  have h : getFilteredDecisions lc now store ⟨some "all", some "all"⟩ t =
      arraySort byTimestampDesc (applySearch lc t store) := by
    simp [getFilteredDecisions, applyTimeframe, applyTag]
  rw [h, (arraySort_perm _ _).mem_iff]
  by_cases ht : t = ""
  · subst ht
    simp [applySearch_empty]
  · rw [applySearch_nonempty lc t ht, List.mem_filter, searchPred_iff]
    simp [ht]

/-- C5, as amended: for a non-empty tag `g` other than `all`, the result with
tag filter `g` is exactly the sub-sequence of the result with tag filter `all`
whose records have some tag equal to `g` ignoring letter case (a record without
tags has none); hence a record is returned exactly when it is stored and passes
the search test, the timeframe test and the tag test. -/
theorem getFilteredDecisions_tag_spec (lc : String → String) (now : Int)
    (store : List Decision) (w : Option String) (g : String) (t : String)
    (hall : g ≠ "all") (hne : g ≠ "") :
    getFilteredDecisions lc now store ⟨w, some g⟩ t =
      (getFilteredDecisions lc now store ⟨w, some "all"⟩ t).filter
        (fun d => decide (HasTag lc g d)) ∧
    (∀ d, d.tags = none → d ∉ getFilteredDecisions lc now store ⟨w, some g⟩ t) ∧
    (∀ d, d ∈ getFilteredDecisions lc now store ⟨w, some g⟩ t ↔
      d ∈ store ∧ (t = "" ∨ SearchMatches lc t d) ∧ PassesTimeframe now w d ∧
        HasTag lc g d) := by
  have hmain := getFilteredDecisions_tag lc now store w g t hall hne
  have hmem : ∀ d, d ∈ getFilteredDecisions lc now store ⟨w, some g⟩ t ↔
      d ∈ store ∧ (t = "" ∨ SearchMatches lc t d) ∧ PassesTimeframe now w d ∧
        HasTag lc g d := by
    intro d
    rw [hmain, getFilteredDecisions_timeframe lc now store w (some "all") t]
    simp only [List.mem_filter, decide_eq_true_eq, mem_getFilteredDecisions_all]
    tauto
  refine ⟨hmain, ?_, hmem⟩
  intro d hd hin
  have := ((hmem d).1 hin).2.2.2
  simp [HasTag, hd] at this

/-- Witness for C5: the tag filter `WORK` keeps the record tagged `Work` and drops
the untagged one. -/
theorem getFilteredDecisions_tag_spec_witness :
    "WORK" ≠ "all" ∧ "WORK" ≠ "" ∧
    getFilteredDecisions asciiLower 0
      [ { id := 1, title := "A", intent := "", constraints := "",
          alternatives := "", finalDecision := "", reasoning := "",
          emotionalState := none, tags := some ["Work"], timestamp := 1, date := "" },
        { id := 2, title := "B", intent := "", constraints := "",
          alternatives := "", finalDecision := "", reasoning := "",
          emotionalState := none, tags := none, timestamp := 2, date := "" } ]
      ⟨none, some "WORK"⟩ "" =
    [ { id := 1, title := "A", intent := "", constraints := "",
        alternatives := "", finalDecision := "", reasoning := "",
        emotionalState := none, tags := some ["Work"], timestamp := 1, date := "" } ] :=
  ⟨by decide, by decide,
   ((getFilteredDecisions_tag_spec asciiLower 0 _ none "WORK" ""
      (by decide) (by decide)).1).trans (by decide)⟩

/-- C5, counterexample to the claim as stated: the empty string is a tag value
other than `all`, but it switches the tag filter off, so the record tagged `x`
is returned although none of its tags equals the empty string. -/
theorem getFilteredDecisions_tag_counterexample :
    "" ≠ "all" ∧
    ¬ HasTag asciiLower ""
      { id := 1, title := "A", intent := "", constraints := "",
        alternatives := "", finalDecision := "", reasoning := "",
        emotionalState := none, tags := some ["x"], timestamp := 1, date := "" } ∧
    getFilteredDecisions asciiLower 0
      [ { id := 1, title := "A", intent := "", constraints := "",
          alternatives := "", finalDecision := "", reasoning := "",
          emotionalState := none, tags := some ["x"], timestamp := 1, date := "" } ]
      ⟨none, some ""⟩ "" =
    [ { id := 1, title := "A", intent := "", constraints := "",
        alternatives := "", finalDecision := "", reasoning := "",
        emotionalState := none, tags := some ["x"], timestamp := 1, date := "" } ] := by
  refine ⟨by decide, by decide, by decide⟩

/-! ## Pagination -/

theorem arraySlice_window {α : Type} (xs : List α) (s n : Nat) :
    arraySlice xs (s : Int) ((s : Int) + (n : Int)) = (xs.drop s).take n := by
  unfold arraySlice
  have h1 : ¬ ((s : Int) < 0) := by omega
  have h2 : ¬ ((s : Int) + (n : Int) < 0) := by omega
  simp only [h1, h2, if_false]
  by_cases hs : s ≤ xs.length
  · have hk : (min (s : Int) (xs.length : Int)).toNat = s := by omega
    rw [hk]
    by_cases hn : s + n ≤ xs.length
    · have he : (min ((s : Int) + (n : Int)) (xs.length : Int) - min (s : Int) (xs.length : Int)).toNat
          = n := by omega
      rw [he]
    · have he : (min ((s : Int) + (n : Int)) (xs.length : Int) - min (s : Int) (xs.length : Int)).toNat
          = xs.length - s := by omega
      rw [he]
      have hlen : (xs.drop s).length = xs.length - s := List.length_drop s xs
      rw [List.take_of_length_le (by omega), List.take_of_length_le (by omega)]
  · have hk : (min (s : Int) (xs.length : Int)).toNat = xs.length := by omega
    rw [hk, List.drop_of_length_le (le_refl _), List.drop_of_length_le (by omega)]
    simp

theorem ceil_div_nat (total ipp : Nat) (hi : 1 ≤ ipp) :
    Int.ceil (((total : Int) : ℚ) / ((ipp : Int) : ℚ)) = (((total + ipp - 1) / ipp : Nat) : Int) := by
  have hpos : (0 : ℚ) < ((ipp : Int) : ℚ) := by
    have : (0 : Int) < (ipp : Int) := by omega
    exact_mod_cast this
  have hdm := Nat.div_add_mod (total + ipp - 1) ipp
  have hmod := Nat.mod_lt (total + ipp - 1) (show ipp > 0 by omega)
  generalize (total + ipp - 1) / ipp = q at *
  generalize hm : ipp * q = m at *
  rw [Int.ceil_eq_iff]
  constructor
  · rw [lt_div_iff₀ hpos]
    have : ((q : Int) - 1) * (ipp : Int) < (total : Int) := by
      have hm' : (ipp : Int) * (q : Int) = (m : Int) := by exact_mod_cast hm
      have : ((q : Int) - 1) * (ipp : Int) = (m : Int) - (ipp : Int) := by
        rw [← hm']; ring
      rw [this]; omega
    exact_mod_cast this
  · rw [div_le_iff₀ hpos]
    have : (total : Int) ≤ (q : Int) * (ipp : Int) := by
      have hm' : (ipp : Int) * (q : Int) = (m : Int) := by exact_mod_cast hm
      have : (q : Int) * (ipp : Int) = (m : Int) := by rw [← hm']; ring
      rw [this]; omega
    exact_mod_cast this

/-- C6: for `page ≥ 1` and `itemsPerPage ≥ 1` the records that
`loadTimelineDecisions` shows are the elements of the filtered and sorted
sequence at the indices from `(page-1)*itemsPerPage` up to but excluding
`page*itemsPerPage`, cut off at its length and in the same order, and
`totalPages` is the ceiling of `total / itemsPerPage`, the least `n` with
`total ≤ n * itemsPerPage`. -/
theorem loadTimelineDecisions_page_spec (lc : String → String) (now : Int)
    (store : List Decision) (f : Filter) (t : String) (page itemsPerPage : Nat)
    (hp : 1 ≤ page) (hi : 1 ≤ itemsPerPage) :
    (loadTimelineDecisions lc now store f t page itemsPerPage).decisions =
      ((getFilteredDecisions lc now store f t).drop ((page - 1) * itemsPerPage)).take
        itemsPerPage ∧
    (∀ k : Nat, (loadTimelineDecisions lc now store f t page itemsPerPage).decisions[k]? =
      if (page - 1) * itemsPerPage + k < page * itemsPerPage then
        (getFilteredDecisions lc now store f t)[(page - 1) * itemsPerPage + k]?
      else none) ∧
    (loadTimelineDecisions lc now store f t page itemsPerPage).totalPages =
      some ((((getFilteredDecisions lc now store f t).length + itemsPerPage - 1)
        / itemsPerPage : Nat) : Int) ∧
    (getFilteredDecisions lc now store f t).length ≤
      (((getFilteredDecisions lc now store f t).length + itemsPerPage - 1) / itemsPerPage)
        * itemsPerPage ∧
    (∀ n : Nat, (getFilteredDecisions lc now store f t).length ≤ n * itemsPerPage →
      ((getFilteredDecisions lc now store f t).length + itemsPerPage - 1) / itemsPerPage
        ≤ n) := by
  have hstart : (((page : Int) - 1) * (itemsPerPage : Int)) =
      (((page - 1) * itemsPerPage : Nat) : Int) := by
    have : ((page - 1 : Nat) : Int) = (page : Int) - 1 := by omega
    push_cast
    rw [this]
  have hdec : (loadTimelineDecisions lc now store f t page itemsPerPage).decisions =
      ((getFilteredDecisions lc now store f t).drop ((page - 1) * itemsPerPage)).take
        itemsPerPage := by
    simp only [loadTimelineDecisions]
    rw [hstart]
    exact arraySlice_window _ _ _
  have hpp : page * itemsPerPage = (page - 1) * itemsPerPage + itemsPerPage := by
    have : page = (page - 1) + 1 := by omega
    conv_lhs => rw [this, Nat.add_mul, Nat.one_mul]
  refine ⟨hdec, ?_, ?_, ?_, ?_⟩
  · intro k
    rw [hdec, hpp, List.getElem?_take]
    by_cases hk : k < itemsPerPage
    · rw [if_pos hk, if_pos (by omega), List.getElem?_drop]
    · rw [if_neg hk, if_neg (by omega)]
  · simp only [loadTimelineDecisions]
    have hne : ((itemsPerPage : Nat) : Int) ≠ 0 := by omega
    rw [if_neg hne, ceil_div_nat _ _ hi]
  · generalize (getFilteredDecisions lc now store f t).length = total
    have hdm := Nat.div_add_mod (total + itemsPerPage - 1) itemsPerPage
    have hmod := Nat.mod_lt (total + itemsPerPage - 1) (show itemsPerPage > 0 by omega)
    rw [Nat.mul_comm]
    generalize (total + itemsPerPage - 1) / itemsPerPage = q at *
    generalize itemsPerPage * q = m at *
    omega
  · intro n hn
    generalize (getFilteredDecisions lc now store f t).length = total at *
    have hlt : total + itemsPerPage - 1 < (n + 1) * itemsPerPage := by
      rw [Nat.add_mul, Nat.one_mul]; omega
    have := (Nat.div_lt_iff_lt_mul (show 0 < itemsPerPage by omega)).2 hlt
    omega

/-- Witness for C6: three records, two per page, page 2 shows the oldest one. -/
theorem loadTimelineDecisions_page_spec_witness :
    1 ≤ 2 ∧
    (loadTimelineDecisions asciiLower 0
      [ { id := 1, title := "A", intent := "", constraints := "",
          alternatives := "", finalDecision := "", reasoning := "",
          emotionalState := none, tags := none, timestamp := 1, date := "" },
        { id := 3, title := "C", intent := "", constraints := "",
          alternatives := "", finalDecision := "", reasoning := "",
          emotionalState := none, tags := none, timestamp := 3, date := "" },
        { id := 2, title := "B", intent := "", constraints := "",
          alternatives := "", finalDecision := "", reasoning := "",
          emotionalState := none, tags := none, timestamp := 2, date := "" } ]
      ⟨none, none⟩ "" (2 : Nat) (2 : Nat)).decisions =
    [ { id := 1, title := "A", intent := "", constraints := "",
        alternatives := "", finalDecision := "", reasoning := "",
        emotionalState := none, tags := none, timestamp := 1, date := "" } ] ∧
    (loadTimelineDecisions asciiLower 0
      [ { id := 1, title := "A", intent := "", constraints := "",
          alternatives := "", finalDecision := "", reasoning := "",
          emotionalState := none, tags := none, timestamp := 1, date := "" },
        { id := 3, title := "C", intent := "", constraints := "",
          alternatives := "", finalDecision := "", reasoning := "",
          emotionalState := none, tags := none, timestamp := 3, date := "" },
        { id := 2, title := "B", intent := "", constraints := "",
          alternatives := "", finalDecision := "", reasoning := "",
          emotionalState := none, tags := none, timestamp := 2, date := "" } ]
      ⟨none, none⟩ "" (2 : Nat) (2 : Nat)).totalPages = some 2 :=
  ⟨by decide,
   ((loadTimelineDecisions_page_spec asciiLower 0 _ ⟨none, none⟩ "" 2 2
      (by decide) (by decide)).1).trans (by decide),
   ((loadTimelineDecisions_page_spec asciiLower 0 _ ⟨none, none⟩ "" 2 2
      (by decide) (by decide)).2.2.1).trans (by decide)⟩

/-! ## The tag classifier -/

theorem familyMatches_eq_any (text : String) (fam : String × List String) :
    decide (FamilyMatches text fam) = fam.2.any (fun kw => includes text kw) := by
  rw [Bool.eq_iff_iff]
  simp [FamilyMatches, List.any_eq_true, includes_iff]

theorem analyzeContentForTags_eq (lc : String → String) (constraints reasoning : String) :
    analyzeContentForTags lc constraints reasoning =
      (tagRules.filter (fun fam =>
        decide (FamilyMatches (lc (constraints ++ " " ++ reasoning)) fam))).map Prod.fst := by
  simp only [analyzeContentForTags, familyMatches_eq_any]
  generalize lc (constraints ++ " " ++ reasoning) = text
  simp only [tagRules, List.filter_cons, List.filter_nil, List.any_cons, List.any_nil,
    Bool.or_false, Bool.or_assoc, List.nil_append]
  generalize (includes text "time" || (includes text "deadline" || includes text "urgent")) = b1
  generalize (includes text "money" || (includes text "budget" ||
    (includes text "cost" || includes text "paid"))) = b2
  generalize (includes text "learn" || (includes text "experience" ||
    (includes text "growth" || includes text "skill"))) = b3
  generalize (includes text "stress" || (includes text "emotional" ||
    (includes text "feeling" || includes text "anxiety"))) = b4
  generalize (includes text "work" || (includes text "job" || includes text "career")) = b5
  generalize (includes text "personal" || (includes text "life" || includes text "family")) = b6
  cases b1 <;> cases b2 <;> cases b3 <;> cases b4 <;> cases b5 <;> cases b6 <;> rfl

/-- C7: `analyzeContentForTags` returns the canonical tags of exactly those
keyword families that have a keyword occurring as a substring of the lower-cased
text `constraints + ' ' + reasoning`, in the fixed order time-sensitive,
financial, learning, emotional, work, personal, without duplicates and without
any other tag. -/
theorem analyzeContentForTags_spec (lc : String → String) (constraints reasoning : String) :
    (analyzeContentForTags lc constraints reasoning).Nodup ∧
    List.Sublist (analyzeContentForTags lc constraints reasoning)
      ["time-sensitive", "financial", "learning", "emotional", "work", "personal"] ∧
    (∀ tag, tag ∈ analyzeContentForTags lc constraints reasoning ↔
      ∃ fam ∈ tagRules, fam.1 = tag ∧
        ∃ kw ∈ fam.2, kw.data <:+: (lc (constraints ++ " " ++ reasoning)).data) ∧
    analyzeContentForTags lc constraints reasoning =
      (tagRules.filter (fun fam =>
        decide (FamilyMatches (lc (constraints ++ " " ++ reasoning)) fam))).map Prod.fst := by
  have heq := analyzeContentForTags_eq lc constraints reasoning
  have hsub : List.Sublist (analyzeContentForTags lc constraints reasoning)
      ["time-sensitive", "financial", "learning", "emotional", "work", "personal"] := by
    rw [heq]
    have h : ["time-sensitive", "financial", "learning", "emotional", "work", "personal"] =
        tagRules.map Prod.fst := by decide
    rw [h]
    exact (List.filter_sublist _).map _
  refine ⟨?_, hsub, ?_, heq⟩
  · exact List.Nodup.sublist hsub (by decide)
  · intro tag
    rw [heq]
    simp only [List.mem_map, List.mem_filter, decide_eq_true_eq, FamilyMatches]
    constructor
    · rintro ⟨fam, ⟨hf, hm⟩, rfl⟩
      exact ⟨fam, hf, rfl, hm⟩
    · rintro ⟨fam, hf, rfl, hm⟩
      exact ⟨fam, ⟨hf, hm⟩, rfl⟩

/-! ## The tag merge of saveDecision -/

theorem setInsertAll_nodup (seen xs : List String) (h : seen.Nodup) :
    (setInsertAll seen xs).Nodup := by
  induction xs generalizing seen with
  | nil => simpa [setInsertAll] using h
  | cons x xs ih =>
    simp only [setInsertAll]
    split
    · exact ih seen h
    · rename_i hx
      apply ih
      rw [List.nodup_append]
      refine ⟨h, List.nodup_singleton x, ?_⟩
      intro a ha hb
      rw [List.mem_singleton] at hb
      exact hx (hb ▸ ha)

theorem mem_setInsertAll (seen xs : List String) (a : String) :
    a ∈ setInsertAll seen xs ↔ a ∈ seen ∨ a ∈ xs := by
  induction xs generalizing seen with
  | nil => simp [setInsertAll]
  | cons x xs ih =>
    simp only [setInsertAll]
    split
    · rename_i hx
      rw [ih, List.mem_cons]
      constructor
      · rintro (h | h)
        · exact Or.inl h
        · exact Or.inr (Or.inr h)
      · rintro (h | h | h)
        · exact Or.inl h
        · exact Or.inl (h ▸ hx)
        · exact Or.inr h
    · rw [ih, List.mem_append, List.mem_singleton, List.mem_cons]
      tauto

/-- C8, as amended: the tags of the record that `saveDecision` appends are the
user tags and the auto-derived tags merged so that no two entries are equal as
strings; every user tag and every classifier tag is present and nothing else.
Equality is exact, so entries that differ only in letter case stay separate. -/
theorem saveDecision_tags_spec (lc : String → String) (idMs timestampMs : Int)
    (dateText : String) (form : CaptureForm) (store : List Decision) :
    (∀ user auto : List String, (mergeTags user auto).Nodup ∧
      ∀ a, a ∈ mergeTags user auto ↔ a ∈ user ∨ a ∈ auto) ∧
    ∃ d ts, saveDecision lc idMs timestampMs dateText form store = store ++ [d] ∧
      d.tags = some ts ∧
      ts = mergeTags (parseTags form.tags)
        (analyzeContentForTags lc form.constraints form.reasoning) ∧
      ts.Nodup ∧
      ∀ a, a ∈ ts ↔ a ∈ parseTags form.tags ∨
        a ∈ analyzeContentForTags lc form.constraints form.reasoning := by
  have hgen : ∀ user auto : List String, (mergeTags user auto).Nodup ∧
      ∀ a, a ∈ mergeTags user auto ↔ a ∈ user ∨ a ∈ auto := by
    intro user auto
    refine ⟨setInsertAll_nodup [] _ List.nodup_nil, ?_⟩
    intro a
    simp [mergeTags, mem_setInsertAll]
  refine ⟨hgen, buildDecision lc idMs timestampMs dateText form, _, rfl, rfl, rfl, ?_, ?_⟩
  · exact (hgen _ _).1
  · exact (hgen _ _).2

/-- C8, counterexample to the claim as stated: with the user tag `Work` and the
reasoning text `work` the saved record carries both `Work` and `work`, two
entries that are equal when letter case is ignored. -/
theorem saveDecision_tags_counterexample :
    saveDecision asciiLower 1700000000000 1700000000000 "Tuesday"
      { tags := "Work", title := "Plan", intent := "", constraints := "",
        alternatives := "", finalDecision := "", reasoning := "work",
        emotionalState := some 5 } [] =
    [ { id := 1700000000000, title := "Plan", intent := "", constraints := "",
        alternatives := "", finalDecision := "", reasoning := "work",
        emotionalState := some 5, tags := some ["Work", "work"],
        timestamp := 1700000000000, date := "Tuesday" } ] ∧
    ¬ (["Work", "work"].map asciiLower).Nodup := by
  refine ⟨by decide, by decide⟩

/-! ## The clusterer: similarity of a pair -/

theorem mem_enum_drop {α : Type} (l : List α) (k j : Nat) (b : α) :
    (j, b) ∈ l.enum.drop k ↔ k ≤ j ∧ l[j]? = some b := by
  rw [List.mem_iff_getElem?]
  constructor
  · rintro ⟨n, hn⟩
    rw [List.getElem?_drop, List.getElem?_enum] at hn
    cases hl : l[k + n]? with
    | none => rw [hl] at hn; simp at hn
    | some x =>
      rw [hl] at hn
      simp only [Option.map_some', Option.some.injEq, Prod.mk.injEq] at hn
      obtain ⟨h1, h2⟩ := hn
      subst h1 h2
      exact ⟨by omega, hl⟩
  · rintro ⟨hk, hj⟩
    refine ⟨j - k, ?_⟩
    rw [List.getElem?_drop, List.getElem?_enum]
    have : k + (j - k) = j := by omega
    rw [this, hj]
    rfl

theorem enum_drop_fst_nodup {α : Type} (l : List α) (k : Nat) :
    ((l.enum.drop k).map Prod.fst).Nodup := by
  rw [List.map_drop, List.enum_map_fst]
  exact List.Nodup.sublist (List.drop_sublist k _) (List.nodup_range _)

theorem innerStep_fold (lc : String → String) (a : Decision)
    (l : List (Nat × Decision)) (hl : (l.map Prod.fst).Nodup) (c P : List Nat) :
    (l.foldl (innerStep lc a) (c, P)).1 =
      c ++ (l.filter (fun jb => decide (jb.1 ∉ P ∧ 15 ≤ similarity lc a jb.2))).map Prod.fst := by
  induction l generalizing c P with
  | nil => simp
  | cons jb l ih =>
    rw [List.map_cons, List.nodup_cons] at hl
    rw [List.foldl_cons]
    by_cases hP : jb.1 ∈ P
    · have hstep : innerStep lc a (c, P) jb = (c, P) := by
        simp [innerStep, hP]
      rw [hstep, ih hl.2, List.filter_cons_of_neg (by simp [hP])]
    · by_cases hs : 15 ≤ similarity lc a jb.2
      · have hstep : innerStep lc a (c, P) jb = (c ++ [jb.1], P ++ [jb.1]) := by
          simp [innerStep, hP, hs]
        rw [hstep, ih hl.2, List.filter_cons_of_pos (by simp [hP, hs])]
        have hcongr : l.filter (fun x => decide (x.1 ∉ P ++ [jb.1] ∧ 15 ≤ similarity lc a x.2)) =
            l.filter (fun x => decide (x.1 ∉ P ∧ 15 ≤ similarity lc a x.2)) := by
          apply List.filter_congr
          intro x hx
          have hne : x.1 ≠ jb.1 := by
            intro he
            exact hl.1 (he ▸ List.mem_map_of_mem Prod.fst hx)
          simp [hne]
        rw [hcongr]
        simp
      · have hstep : innerStep lc a (c, P) jb = (c, P) := by
          simp [innerStep, hP]
          omega
        rw [hstep, ih hl.2, List.filter_cons_of_neg (by simp [hP, hs])]

theorem innerLoop_cluster (lc : String → String) (decisions : List Decision) (i : Nat)
    (a : Decision) (P : List Nat) :
    (innerLoop lc decisions i a P).1 =
      i :: ((decisions.enum.drop (i + 1)).filter
        (fun jb => decide (jb.1 ∉ P ∧ 15 ≤ similarity lc a jb.2))).map Prod.fst := by
  unfold innerLoop
  rw [innerStep_fold lc a _ (enum_drop_fst_nodup _ _)]
  rfl

theorem mem_innerLoop_cluster (lc : String → String) (decisions : List Decision)
    (i j : Nat) (a b : Decision) (P : List Nat)
    (hj : decisions[j]? = some b) (hij : i < j) (hP : j ∉ P) :
    j ∈ (innerLoop lc decisions i a P).1 ↔ 15 ≤ similarity lc a b := by
  rw [innerLoop_cluster, List.mem_cons, List.mem_map]
  constructor
  · rintro (h | ⟨⟨j2, b2⟩, hmem, hfst⟩)
    · omega
    · simp only at hfst
      subst hfst
      rw [List.mem_filter] at hmem
      have hb := ((mem_enum_drop decisions (i + 1) j2 b2).1 hmem.1).2
      rw [hj] at hb
      cases hb
      simpa using (of_decide_eq_true hmem.2).2
  · intro hs
    right
    refine ⟨(j, b), ?_, rfl⟩
    rw [List.mem_filter]
    exact ⟨(mem_enum_drop decisions (i + 1) j b).2 ⟨by omega, hj⟩, by simp [hP, hs]⟩

theorem similarity_eq_countP (lc : String → String) (a b : Decision) :
    similarity lc a b =
      10 * (a.tags.getD []).countP (fun t => decide (t ∈ b.tags.getD [])) +
      5 * (titleWords lc b.title).countP (fun w => decide (w ∈ titleWords lc a.title)) := by
  unfold similarity
  cases ha : a.tags with
  | none => simp [List.countP_eq_length_filter, Nat.mul_comm]
  | some ta =>
    cases hb : b.tags with
    | none => simp [List.countP_eq_length_filter, Nat.mul_comm]
    | some tb => simp [List.countP_eq_length_filter, Nat.mul_comm]

theorem countP_words (lc : String → String) (a b : Decision)
    (hw : "" ∉ titleWords lc a.title ∨ "" ∉ titleWords lc b.title) :
    (titleWords lc b.title).countP (fun w => decide (w ∈ titleWords lc a.title)) =
      (words lc b.title).countP (fun w => decide (w ∈ words lc a.title)) := by
  unfold words
  rw [List.countP_filter]
  apply List.countP_congr
  intro w hwb
  have hne : w ∈ titleWords lc a.title → w ≠ "" := by
    intro hwa he
    subst he
    rcases hw with h | h
    · exact h hwa
    · exact h hwb
  simp only [List.mem_filter, bne_iff_ne, ne_eq, decide_eq_true_eq, Bool.and_eq_true,
    Bool.decide_and, decide_not, Bool.not_eq_true', decide_eq_false_iff_not]
  constructor
  · intro h
    exact ⟨⟨h, hne h⟩, hne h⟩
  · intro h
    exact h.1.1

theorem similarity_eq_words (lc : String → String) (a b : Decision)
    (hw : "" ∉ titleWords lc a.title ∨ "" ∉ titleWords lc b.title) :
    similarity lc a b =
      10 * (a.tags.getD []).countP (fun t => decide (t ∈ b.tags.getD [])) +
      5 * (words lc b.title).countP (fun w => decide (w ∈ words lc a.title)) := by
  rw [similarity_eq_countP, countP_words lc a b hw]

theorem findSimilarDecisions_pair (lc : String → String) (a b : Decision) :
    findSimilarDecisions lc [a, b] = if 15 ≤ similarity lc a b then [[0, 1]] else [] := by
  by_cases h : 15 ≤ similarity lc a b
  · simp [findSimilarDecisions, outerStep, innerLoop, innerStep, List.enum, List.enumFrom, h]
  · have h2 : ¬ similarity lc a b ≥ 15 := h
    simp [findSimilarDecisions, outerStep, innerLoop, innerStep, List.enum, List.enumFrom, h, h2]

/-- C9, as amended: for a pair `i < j` that the inner loop compares, where the
two titles do not both yield an empty piece when split, the similarity is ten
times the number of entries of record `i`'s tag list that occur in record `j`'s
tag list plus five times the number of word occurrences of `j`'s title that are
title words of `i`, repeats counted as often as they occur; it equals the value
with distinct counts when `i`'s tag list and `j`'s title words have no repeats;
and `j` joins `i`'s cluster exactly when the similarity is at least 15. -/
theorem findSimilarDecisions_similarity_spec (lc : String → String)
    (decisions : List Decision) (i j : Nat) (a b : Decision) (P : List Nat)
    (hi : decisions[i]? = some a) (hj : decisions[j]? = some b) (hij : i < j)
    (hP : j ∉ P)
    (hw : "" ∉ titleWords lc a.title ∨ "" ∉ titleWords lc b.title) :
    similarity lc a b =
      10 * (a.tags.getD []).countP (fun t => decide (t ∈ b.tags.getD [])) +
      5 * (words lc b.title).countP (fun w => decide (w ∈ words lc a.title)) ∧
    ((a.tags.getD []).Nodup → (words lc b.title).Nodup →
      similarity lc a b = specSimilarity lc a b) ∧
    (j ∈ (innerLoop lc decisions i a P).1 ↔ 15 ≤ similarity lc a b) := by
  have _ := hi
  refine ⟨similarity_eq_words lc a b hw, ?_, mem_innerLoop_cluster lc decisions i j a b P hj hij hP⟩
  intro hta hwb
  rw [similarity_eq_words lc a b hw]
  unfold specSimilarity sharedTags sharedTitleWords distinctWords
  rw [hta.dedup, hwb.dedup, List.countP_eq_length_filter, List.countP_eq_length_filter]
  have : (words lc b.title).filter (fun w => decide (w ∈ (words lc a.title).dedup)) =
      (words lc b.title).filter (fun w => decide (w ∈ words lc a.title)) := by
    apply List.filter_congr
    intro w _
    simp [List.mem_dedup]
  rw [this]

/-- Witness for C9: `New laptop` and `Laptop bag`, both tagged `financial`,
score 10 + 5 = 15 and record 1 joins the cluster of record 0. -/
theorem findSimilarDecisions_similarity_spec_witness :
    similarity asciiLower
      { id := 1, title := "New laptop", intent := "", constraints := "",
        alternatives := "", finalDecision := "", reasoning := "",
        emotionalState := none, tags := some ["financial"], timestamp := 1, date := "" }
      { id := 2, title := "Laptop bag", intent := "", constraints := "",
        alternatives := "", finalDecision := "", reasoning := "",
        emotionalState := none, tags := some ["financial"], timestamp := 2, date := "" }
      = 15 ∧
    1 ∈ (innerLoop asciiLower
      [ { id := 1, title := "New laptop", intent := "", constraints := "",
          alternatives := "", finalDecision := "", reasoning := "",
          emotionalState := none, tags := some ["financial"], timestamp := 1, date := "" },
        { id := 2, title := "Laptop bag", intent := "", constraints := "",
          alternatives := "", finalDecision := "", reasoning := "",
          emotionalState := none, tags := some ["financial"], timestamp := 2, date := "" } ]
      0
      { id := 1, title := "New laptop", intent := "", constraints := "",
        alternatives := "", finalDecision := "", reasoning := "",
        emotionalState := none, tags := some ["financial"], timestamp := 1, date := "" }
      []).1 :=
  ⟨((findSimilarDecisions_similarity_spec asciiLower
      [ { id := 1, title := "New laptop", intent := "", constraints := "",
          alternatives := "", finalDecision := "", reasoning := "",
          emotionalState := none, tags := some ["financial"], timestamp := 1, date := "" },
        { id := 2, title := "Laptop bag", intent := "", constraints := "",
          alternatives := "", finalDecision := "", reasoning := "",
          emotionalState := none, tags := some ["financial"], timestamp := 2, date := "" } ]
      0 1
      { id := 1, title := "New laptop", intent := "", constraints := "",
        alternatives := "", finalDecision := "", reasoning := "",
        emotionalState := none, tags := some ["financial"], timestamp := 1, date := "" }
      { id := 2, title := "Laptop bag", intent := "", constraints := "",
        alternatives := "", finalDecision := "", reasoning := "",
        emotionalState := none, tags := some ["financial"], timestamp := 2, date := "" }
      [] (by decide) (by decide) (by decide) (by decide) (Or.inl (by decide))).1).trans
      (by decide),
   ((findSimilarDecisions_similarity_spec asciiLower
      [ { id := 1, title := "New laptop", intent := "", constraints := "",
          alternatives := "", finalDecision := "", reasoning := "",
          emotionalState := none, tags := some ["financial"], timestamp := 1, date := "" },
        { id := 2, title := "Laptop bag", intent := "", constraints := "",
          alternatives := "", finalDecision := "", reasoning := "",
          emotionalState := none, tags := some ["financial"], timestamp := 2, date := "" } ]
      0 1
      { id := 1, title := "New laptop", intent := "", constraints := "",
        alternatives := "", finalDecision := "", reasoning := "",
        emotionalState := none, tags := some ["financial"], timestamp := 1, date := "" }
      { id := 2, title := "Laptop bag", intent := "", constraints := "",
        alternatives := "", finalDecision := "", reasoning := "",
        emotionalState := none, tags := some ["financial"], timestamp := 2, date := "" }
      [] (by decide) (by decide) (by decide) (by decide) (Or.inl (by decide))).2.2).2
      (by decide)⟩

/-- C9, counterexample to the claim as stated: the titles `go` and `go go go`
have one distinct word in common, so the stated value is 5, but the code counts
the three occurrences, computes 15 and clusters the two records. -/
theorem findSimilarDecisions_similarity_counterexample :
    specSimilarity asciiLower
      { id := 1, title := "go", intent := "", constraints := "",
        alternatives := "", finalDecision := "", reasoning := "",
        emotionalState := none, tags := none, timestamp := 1, date := "" }
      { id := 2, title := "go go go", intent := "", constraints := "",
        alternatives := "", finalDecision := "", reasoning := "",
        emotionalState := none, tags := none, timestamp := 2, date := "" } = 5 ∧
    similarity asciiLower
      { id := 1, title := "go", intent := "", constraints := "",
        alternatives := "", finalDecision := "", reasoning := "",
        emotionalState := none, tags := none, timestamp := 1, date := "" }
      { id := 2, title := "go go go", intent := "", constraints := "",
        alternatives := "", finalDecision := "", reasoning := "",
        emotionalState := none, tags := none, timestamp := 2, date := "" } = 15 ∧
    findSimilarDecisions asciiLower
      [ { id := 1, title := "go", intent := "", constraints := "",
          alternatives := "", finalDecision := "", reasoning := "",
          emotionalState := none, tags := none, timestamp := 1, date := "" },
        { id := 2, title := "go go go", intent := "", constraints := "",
          alternatives := "", finalDecision := "", reasoning := "",
          emotionalState := none, tags := none, timestamp := 2, date := "" } ] =
      [[0, 1]] := by
  refine ⟨by decide, by decide, by decide⟩

/-! ## The clusterer on two records -/

theorem sharedTags_length_le (a b : Decision) :
    (sharedTags a b).length ≤
      (a.tags.getD []).countP (fun t => decide (t ∈ b.tags.getD [])) := by
  unfold sharedTags
  rw [List.countP_eq_length_filter]
  exact ((List.dedup_sublist _).filter _).length_le

/-- Two records with at least two distinct tags in common form one cluster. -/
theorem findSimilarDecisions_pair_two_tags (lc : String → String) (a b : Decision)
    (h : 2 ≤ (sharedTags a b).length) :
    findSimilarDecisions lc [a, b] = [[0, 1]] := by
  rw [findSimilarDecisions_pair, if_pos]
  rw [similarity_eq_countP]
  have := sharedTags_length_le a b
  omega

/-- Two records with one distinct tag in common, no repeated tag in the first
and no common title word form no cluster, provided the titles do not both yield
an empty piece when split. -/
theorem findSimilarDecisions_pair_one_tag (lc : String → String) (a b : Decision)
    (ht : (sharedTags a b).length = 1) (hnd : (a.tags.getD []).Nodup)
    (hwords : sharedTitleWords lc a b = [])
    (hw : "" ∉ titleWords lc a.title ∨ "" ∉ titleWords lc b.title) :
    findSimilarDecisions lc [a, b] = [] := by
  rw [findSimilarDecisions_pair, if_neg]
  rw [similarity_eq_words lc a b hw]
  have h1 : (a.tags.getD []).countP (fun t => decide (t ∈ b.tags.getD [])) = 1 := by
    rw [← ht, sharedTags, hnd.dedup, List.countP_eq_length_filter]
  have h2 : (words lc b.title).countP (fun w => decide (w ∈ words lc a.title)) = 0 := by
    rw [List.countP_eq_zero]
    intro w hwb hwa
    have hwa : w ∈ words lc a.title := by simpa using hwa
    have : w ∈ sharedTitleWords lc a b := by
      unfold sharedTitleWords distinctWords
      rw [List.mem_filter]
      exact ⟨List.mem_dedup.2 hwb, by simpa [List.mem_dedup] using hwa⟩
    rw [hwords] at this
    exact absurd this (List.not_mem_nil w)
  rw [h1, h2]
  omega

/-- C10, the failing input evaluated: `Buy laptop?` and `Sell car?`, both tagged
`financial`, share exactly one tag and no title word, yet the code scores
10 + 5 = 15, because each title ends in `?` and splits into a trailing empty
piece that is counted as a common word, and returns the cluster `[0, 1]`. -/
theorem findSimilarDecisions_threshold_failing_input :
    sharedTags
      { id := 1, title := "Buy laptop?", intent := "", constraints := "",
        alternatives := "", finalDecision := "", reasoning := "",
        emotionalState := none, tags := some ["financial"], timestamp := 1, date := "" }
      { id := 2, title := "Sell car?", intent := "", constraints := "",
        alternatives := "", finalDecision := "", reasoning := "",
        emotionalState := none, tags := some ["financial"], timestamp := 2, date := "" }
      = ["financial"] ∧
    sharedTitleWords asciiLower
      { id := 1, title := "Buy laptop?", intent := "", constraints := "",
        alternatives := "", finalDecision := "", reasoning := "",
        emotionalState := none, tags := some ["financial"], timestamp := 1, date := "" }
      { id := 2, title := "Sell car?", intent := "", constraints := "",
        alternatives := "", finalDecision := "", reasoning := "",
        emotionalState := none, tags := some ["financial"], timestamp := 2, date := "" }
      = [] ∧
    titleWords asciiLower "Buy laptop?" = ["buy", "laptop", ""] ∧
    titleWords asciiLower "Sell car?" = ["sell", "car", ""] ∧
    similarity asciiLower
      { id := 1, title := "Buy laptop?", intent := "", constraints := "",
        alternatives := "", finalDecision := "", reasoning := "",
        emotionalState := none, tags := some ["financial"], timestamp := 1, date := "" }
      { id := 2, title := "Sell car?", intent := "", constraints := "",
        alternatives := "", finalDecision := "", reasoning := "",
        emotionalState := none, tags := some ["financial"], timestamp := 2, date := "" }
      = 15 ∧
    findSimilarDecisions asciiLower
      [ { id := 1, title := "Buy laptop?", intent := "", constraints := "",
          alternatives := "", finalDecision := "", reasoning := "",
          emotionalState := none, tags := some ["financial"], timestamp := 1, date := "" },
        { id := 2, title := "Sell car?", intent := "", constraints := "",
          alternatives := "", finalDecision := "", reasoning := "",
          emotionalState := none, tags := some ["financial"], timestamp := 2, date := "" } ] =
      [[0, 1]] := by
  refine ⟨by decide, by decide, by decide, by decide, by decide, by decide⟩

/-! ## The sentiment scorer -/

theorem sentimentStep_fold (lc : String → String) (texts : List SentimentItem)
    (t : Int) (c : Nat) :
    texts.foldl (sentimentStep lc) (t, c) =
      (t + (texts.map (fun item => clampScore (rawScore lc (itemText item)))).sum,
       c + texts.length) := by
  induction texts generalizing t c with
  | nil => simp
  | cons item rest ih =>
    rw [List.foldl_cons]
    simp only [sentimentStep]
    rw [ih]
    simp only [List.map_cons, List.sum_cons, List.length_cons]
    congr 1
    · ring
    · omega

theorem calculateSentimentScore_cons (lc : String → String) (item : SentimentItem)
    (rest : List SentimentItem) :
    calculateSentimentScore lc (item :: rest) =
      ((((item :: rest).map (fun i => clampScore (rawScore lc (itemText i)))).sum : Int) : ℚ) /
        (((item :: rest).length : Nat) : ℚ) := by
  unfold calculateSentimentScore
  rw [if_neg (by simp), sentimentStep_fold]
  simp only [Nat.zero_add, Int.zero_add]
  rw [if_pos (by simp)]

theorem calculateSentimentScore_single (lc : String → String) (item : SentimentItem) :
    calculateSentimentScore lc [item] = ((clampScore (rawScore lc (itemText item)) : Int) : ℚ) := by
  rw [calculateSentimentScore_cons]
  simp

theorem clampScore_bounds (s : Int) : 0 ≤ clampScore s ∧ clampScore s ≤ 100 := by
  unfold clampScore
  omega

theorem lexicon_fold_add (text : String) (ws : List String) (s : Int) :
    ws.foldl (fun score word => if includes text word then score + 5 else score) s =
      s + 5 * (ws.countP (fun w => decide (w.data <:+: text.data)) : Nat) := by
  induction ws generalizing s with
  | nil => simp
  | cons w ws ih =>
    rw [List.foldl_cons, ih, List.countP_cons]
    by_cases h : w.data <:+: text.data
    · simp [h, (includes_iff text w).2 h]
      ring
    · have : includes text w ≠ true := fun hh => h ((includes_iff text w).1 hh)
      simp [h, this]

theorem lexicon_fold_sub (text : String) (ws : List String) (s : Int) :
    ws.foldl (fun score word => if includes text word then score - 5 else score) s =
      s - 5 * (ws.countP (fun w => decide (w.data <:+: text.data)) : Nat) := by
  induction ws generalizing s with
  | nil => simp
  | cons w ws ih =>
    rw [List.foldl_cons, ih, List.countP_cons]
    by_cases h : w.data <:+: text.data
    · simp [h, (includes_iff text w).2 h]
      ring
    · have : includes text w ≠ true := fun hh => h ((includes_iff text w).1 hh)
      simp [h, this]

theorem rawScore_eq (lc : String → String) (text : String) :
    rawScore lc text =
      50 + 5 * (positiveWords.countP (fun w => decide (w.data <:+: (lc text).data)) : Nat)
        - 5 * (negativeWords.countP (fun w => decide (w.data <:+: (lc text).data)) : Nat) := by
  unfold rawScore
  simp only [lexicon_fold_add, lexicon_fold_sub]

/-- C12: the score of a single text lies between 0 and 100; the empty text
scores 50 and `good great excellent` scores 65 (for any lowering that leaves
these two lower-case texts unchanged, as `toLowerCase` does). -/
theorem calculateSentimentScore_bounds_spec (lc : String → String)
    (hempty : lc "" = "")
    (hgood : lc "good great excellent" = "good great excellent") :
    (∀ text : String,
      0 ≤ calculateSentimentScore lc [SentimentItem.text text] ∧
      calculateSentimentScore lc [SentimentItem.text text] ≤ 100) ∧
    calculateSentimentScore lc [SentimentItem.text ""] = 50 ∧
    calculateSentimentScore lc [SentimentItem.text "good great excellent"] = 65 := by
  refine ⟨?_, ?_, ?_⟩
  · intro text
    rw [calculateSentimentScore_single]
    have h := clampScore_bounds (rawScore lc (itemText (SentimentItem.text text)))
    exact ⟨by exact_mod_cast h.1, by exact_mod_cast h.2⟩
  · rw [calculateSentimentScore_single]
    have h : clampScore (rawScore lc (itemText (SentimentItem.text ""))) = 50 := by
      simp only [itemText, rawScore, hempty]
      decide
    rw [h]
    norm_num
  · rw [calculateSentimentScore_single]
    have h : clampScore (rawScore lc (itemText (SentimentItem.text "good great excellent")))
        = 65 := by
      simp only [itemText, rawScore, hgood]
      decide
    rw [h]
    norm_num

/-- Witness for C12: with the ASCII lowering the empty text scores 50 and
`good great excellent` scores 65. -/
theorem calculateSentimentScore_bounds_spec_witness :
    asciiLower "" = "" ∧
    asciiLower "good great excellent" = "good great excellent" ∧
    calculateSentimentScore asciiLower [SentimentItem.text ""] = 50 ∧
    calculateSentimentScore asciiLower [SentimentItem.text "good great excellent"] = 65 :=
  ⟨by decide, by decide,
   (calculateSentimentScore_bounds_spec asciiLower (by decide) (by decide)).2.1,
   (calculateSentimentScore_bounds_spec asciiLower (by decide) (by decide)).2.2⟩

/-- C13, as amended: the score of a single text is 50 plus 5 for each positive
lexicon word that occurs at least once as a substring of the lower-cased text,
minus 5 for each negative lexicon word that occurs at least once, clamped to
0..100; two texts in which the same lexicon words occur score the same, so
repeating a word does not change the score. -/
theorem calculateSentimentScore_single_spec (lc : String → String) (text : String) :
    calculateSentimentScore lc [SentimentItem.text text] =
      ((clampScore
        (50 + 5 * (positiveWords.countP (fun w => decide (w.data <:+: (lc text).data)) : Nat)
          - 5 * (negativeWords.countP (fun w => decide (w.data <:+: (lc text).data)) : Nat))
        : Int) : ℚ) ∧
    (∀ other : String,
      (∀ w ∈ positiveWords ++ negativeWords,
        w.data <:+: (lc text).data ↔ w.data <:+: (lc other).data) →
      calculateSentimentScore lc [SentimentItem.text other] =
        calculateSentimentScore lc [SentimentItem.text text]) := by
  refine ⟨?_, ?_⟩
  · rw [calculateSentimentScore_single, itemText, rawScore_eq]
  · intro other h
    rw [calculateSentimentScore_single, calculateSentimentScore_single, itemText, itemText,
      rawScore_eq, rawScore_eq]
    have hp : positiveWords.countP (fun w => decide (w.data <:+: (lc other).data)) =
        positiveWords.countP (fun w => decide (w.data <:+: (lc text).data)) := by
      apply List.countP_congr
      intro w hw
      have := h w (List.mem_append_left _ hw)
      simp [this]
    have hn : negativeWords.countP (fun w => decide (w.data <:+: (lc other).data)) =
        negativeWords.countP (fun w => decide (w.data <:+: (lc text).data)) := by
      apply List.countP_congr
      intro w hw
      have := h w (List.mem_append_right _ hw)
      simp [this]
    rw [hp, hn]

/-- C13, counterexample to the claim as stated: `good` occurs twice in
`good good`, so counting occurrences gives 50 + 5 + 5 = 60, but the code tests
`includes` once per lexicon word and scores 55, the same as for `good`. -/
theorem calculateSentimentScore_single_counterexample :
    occurrences "good" (asciiLower "good good") = 2 ∧
    specOccurrenceScore asciiLower "good good" = 60 ∧
    calculateSentimentScore asciiLower [SentimentItem.text "good good"] = 55 ∧
    calculateSentimentScore asciiLower [SentimentItem.text "good"] = 55 := by
  refine ⟨by decide, by decide, ?_, ?_⟩
  · rw [calculateSentimentScore_single]
    have h : clampScore (rawScore asciiLower (itemText (SentimentItem.text "good good")))
        = 55 := by decide
    rw [h]
    norm_num
  · rw [calculateSentimentScore_single]
    have h : clampScore (rawScore asciiLower (itemText (SentimentItem.text "good")))
        = 55 := by decide
    rw [h]
    norm_num

/-- C14: for a non-empty array the result is the arithmetic mean of the clamped
scores of its items, the scored text of a record being its reasoning, a space
and its constraints; for the empty array the result is 50. -/
theorem calculateSentimentScore_mean_spec (lc : String → String) :
    (∀ (item : SentimentItem) (rest : List SentimentItem),
      calculateSentimentScore lc (item :: rest) =
        ((((item :: rest).map
          (fun i => clampScore (rawScore lc (itemText i)))).sum : Int) : ℚ) /
          (((item :: rest).length : Nat) : ℚ)) ∧
    (∀ d : Decision, itemText (SentimentItem.record d) = d.reasoning ++ " " ++ d.constraints) ∧
    (∀ s : String, itemText (SentimentItem.text s) = s) ∧
    calculateSentimentScore lc [] = 50 := by
  refine ⟨fun item rest => calculateSentimentScore_cons lc item rest, fun _ => rfl,
    fun _ => rfl, ?_⟩
  simp [calculateSentimentScore]

/-! ## The analyzers on the empty collection -/

/-- C15: on the empty record collection each of `analyzePatterns`,
`detectBiases`, `suggestImprovements` and `analyzeSentiment` returns the empty
insight sequence: the averages over zero records are `NaN` and compare false,
and no count exceeds a zero threshold. -/
theorem analyzers_empty_spec (lc : String → String) :
    analyzePatterns lc [] = [] ∧
    detectBiases lc [] = [] ∧
    suggestImprovements lc [] = [] ∧
    analyzeSentiment lc [] = [] := by
  refine ⟨?_, ?_, ?_, ?_⟩
  · simp [analyzePatterns, numDiv, numLt, findSimilarDecisions, List.enum, List.enumFrom]
  · simp [detectBiases, numDiv, numLt, analyzeRecentPatterns, arraySlice]
  · simp [suggestImprovements, numDiv, numLt]
  · simp [analyzeSentiment, arraySlice, calculateSentimentScore]
    norm_num

/-! ## The clusterer: shape of the result -/

theorem foldl_invariant {σ α : Type} (Inv : σ → Prop) (Q : α → Prop) (step : σ → α → σ)
    (hstep : ∀ st x, Inv st → Q x → Inv (step st x)) (l : List α) (hl : ∀ x ∈ l, Q x)
    (st : σ) (h0 : Inv st) : Inv (l.foldl step st) := by
  induction l generalizing st with
  | nil => exact h0
  | cons x l ih =>
    rw [List.foldl_cons]
    apply ih (fun y hy => hl y (List.mem_cons_of_mem _ hy))
    exact hstep st x h0 (hl x (List.mem_cons_self _ _))

theorem fst_lt_of_mem_enum {α : Type} (l : List α) (x : Nat × α) (h : x ∈ l.enum) :
    x.1 < l.length := by
  rw [List.mem_enum_iff_getElem?] at h
  exact (List.getElem?_eq_some.1 h).1

theorem mem_innerLoop_lt (lc : String → String) (decisions : List Decision) (i : Nat)
    (a : Decision) (P : List Nat) (hi : i < decisions.length) (k : Nat)
    (hk : k ∈ (innerLoop lc decisions i a P).1) : k < decisions.length := by
  rw [innerLoop_cluster, List.mem_cons, List.mem_map] at hk
  rcases hk with rfl | ⟨jb, hjb, rfl⟩
  · exact hi
  · exact fst_lt_of_mem_enum decisions jb (List.mem_of_mem_drop (List.mem_filter.1 hjb).1)

theorem outerStep_clusters (lc : String → String) (decisions : List Decision)
    (st : List (List Nat) × List Nat) (ia : Nat × Decision)
    (hst : ∀ c ∈ st.1, 2 ≤ c.length ∧ ∀ k ∈ c, k < decisions.length)
    (hia : ia ∈ decisions.enum) :
    ∀ c ∈ (outerStep lc decisions st ia).1, 2 ≤ c.length ∧ ∀ k ∈ c, k < decisions.length := by
  unfold outerStep
  split
  · exact hst
  · dsimp only
    split
    · rename_i hlen
      intro c hc
      rcases List.mem_append.1 hc with hc | hc
      · exact hst c hc
      · rw [List.mem_singleton] at hc
        subst hc
        refine ⟨by omega, ?_⟩
        intro k hk
        exact mem_innerLoop_lt lc decisions ia.1 ia.2 st.2
          (fst_lt_of_mem_enum decisions ia hia) k hk
    · exact hst

/-- C11: every cluster that `findSimilarDecisions` returns has at least two
members and every member is a valid index into the input; for the empty input
the cluster list is empty. -/
theorem findSimilarDecisions_clusters_spec (lc : String → String)
    (decisions : List Decision) :
    (∀ c ∈ findSimilarDecisions lc decisions,
      2 ≤ c.length ∧ ∀ k ∈ c, k < decisions.length) ∧
    findSimilarDecisions lc [] = [] := by
  refine ⟨?_, rfl⟩
  unfold findSimilarDecisions
  exact foldl_invariant
    (fun st : List (List Nat) × List Nat =>
      ∀ c ∈ st.1, 2 ≤ c.length ∧ ∀ k ∈ c, k < decisions.length)
    (fun ia => ia ∈ decisions.enum) (outerStep lc decisions)
    (fun st ia hst hia => outerStep_clusters lc decisions st ia hst hia)
    decisions.enum (fun _ h => h) ([], []) (by simp)

theorem innerStep_fold_noop (lc : String → String) (a : Decision)
    (l : List (Nat × Decision)) (hl : ∀ jb ∈ l, similarity lc a jb.2 < 15)
    (st : List Nat × List Nat) :
    l.foldl (innerStep lc a) st = st := by
  induction l generalizing st with
  | nil => rfl
  | cons jb l ih =>
    rw [List.foldl_cons]
    have h := hl jb (List.mem_cons_self _ _)
    have hstep : innerStep lc a st jb = st := by
      unfold innerStep
      split
      · rfl
      · rw [if_neg (by omega)]
    rw [hstep]
    exact ih (fun x hx => hl x (List.mem_cons_of_mem _ hx)) st

theorem pairwise_enum_drop (lc : String → String) (decisions : List Decision)
    (hp : decisions.Pairwise (fun a b => similarity lc a b < 15))
    (ia : Nat × Decision) (hia : ia ∈ decisions.enum) :
    ∀ jb ∈ decisions.enum.drop (ia.1 + 1), similarity lc ia.2 jb.2 < 15 := by
  intro jb hjb
  obtain ⟨j, b⟩ := jb
  obtain ⟨i, a⟩ := ia
  have hj := (mem_enum_drop decisions (i + 1) j b).1 hjb
  rw [List.mem_enum_iff_getElem?] at hia
  simp only at hia hj ⊢
  obtain ⟨hi1, hi2⟩ := List.getElem?_eq_some.1 hia
  obtain ⟨hj1, hj2⟩ := List.getElem?_eq_some.1 hj.2
  have := (List.pairwise_iff_getElem.1 hp) i j hi1 hj1 (by omega)
  rw [hi2, hj2] at this
  exact this

/-- When no pair of records reaches similarity 15 there is no cluster. -/
theorem findSimilarDecisions_eq_nil (lc : String → String) (decisions : List Decision)
    (hp : decisions.Pairwise (fun a b => similarity lc a b < 15)) :
    findSimilarDecisions lc decisions = [] := by
  unfold findSimilarDecisions
  have h := foldl_invariant
    (fun st : List (List Nat) × List Nat => st = ([], []))
    (fun ia => ia ∈ decisions.enum) (outerStep lc decisions)
    (fun st ia hst hia => by
      subst hst
      unfold outerStep innerLoop
      rw [innerStep_fold_noop lc ia.2 _ (pairwise_enum_drop lc decisions hp ia hia)]
      simp)
    decisions.enum (fun _ h => h) ([], []) rfl
  rw [h]

/-! ## analyzePatterns and detectBiases: when an insight is emitted -/

theorem gt_three_tenths (k n : Nat) : ((k : ℚ) > (n : ℚ) * 0.3) ↔ 3 * n < 10 * k := by
  constructor
  · intro h
    have h2 : (3 : ℚ) * n < 10 * k := by norm_num at h; linarith
    exact_mod_cast h2
  · intro h
    have h2 : (3 : ℚ) * n < 10 * k := by exact_mod_cast h
    norm_num
    linarith

theorem gt_quarter (k n : Nat) : ((k : ℚ) > (n : ℚ) * 0.25) ↔ n < 4 * k := by
  constructor
  · intro h
    have h2 : (n : ℚ) < 4 * k := by norm_num at h; linarith
    exact_mod_cast h2
  · intro h
    have h2 : (n : ℚ) < 4 * k := by exact_mod_cast h
    norm_num
    linarith

theorem emotionSum_eq (decisions : List Decision) :
    emotionSum decisions = (decisions.map emotionOrDefault).sum := by
  unfold emotionSum
  have h : ∀ (l : List Decision) (s : Int),
      l.foldl (fun sum d => sum + emotionOrDefault d) s = s + (l.map emotionOrDefault).sum := by
    intro l
    induction l with
    | nil => intro s; simp
    | cons d l ih =>
      intro s
      rw [List.foldl_cons, ih, List.map_cons, List.sum_cons]
      ring
  rw [h]
  simp

theorem emotionOrDefault_eq (d : Decision) :
    emotionOrDefault d = if d.emotionalState = some 0 then 5 else d.emotionalState.getD 5 := by
  unfold emotionOrDefault
  cases h : d.emotionalState with
  | none => simp
  | some v =>
    by_cases hv : v = 0
    · simp [hv]
    · simp [hv]

theorem emotionSum_eq_total (decisions : List Decision) :
    emotionSum decisions = emotionTotalZeroAsFive decisions := by
  rw [emotionSum_eq]
  unfold emotionTotalZeroAsFive
  congr 1
  apply List.map_congr_left
  intro d _
  exact emotionOrDefault_eq d

theorem numLt_numDiv (s : Int) (n : Nat) (c : Int) :
    numLt (numDiv (s : ℚ) (n : Int)) (c : ℚ) = true ↔ n ≠ 0 ∧ s < c * n := by
  unfold numDiv numLt
  by_cases hn : n = 0
  · subst hn
    simp
  · have hn2 : ((n : Int)) ≠ 0 := by exact_mod_cast hn
    rw [if_neg hn2]
    have hpos : (0 : ℚ) < ((n : Int) : ℚ) := by
      have : 0 < n := Nat.pos_of_ne_zero hn
      exact_mod_cast this
    simp only [decide_eq_true_eq, ne_eq, hn, not_false_eq_true, true_and]
    rw [div_lt_iff₀ hpos]
    constructor
    · intro h
      exact_mod_cast h
    · intro h
      exact_mod_cast h

theorem analyzePatterns_eq (lc : String → String) (decisions : List Decision) :
    analyzePatterns lc decisions =
      (if 3 * decisions.length <
          10 * (decisions.filter (fun d =>
            includes (lc d.constraints) "time" || tagsInclude d "time-sensitive")).length then
        [{ title := "⏳ Time Pressure Pattern"
           message := InsightMessage.timePressure
             (decisions.filter (fun d =>
               includes (lc d.constraints) "time" || tagsInclude d "time-sensitive")).length
             decisions.length
           type := none
           confidence := 85 }]
       else []) ++
      (if numLt (numDiv (emotionSum decisions : ℚ) decisions.length) 4 then
        [{ title := "😟 Emotional State Alert"
           message := InsightMessage.emotionalAlert
             (numDiv (emotionSum decisions : ℚ) decisions.length)
           type := some "warning"
           confidence := 90 }]
       else []) ++
      (if (findSimilarDecisions lc decisions).length > 0 then
        [{ title := "🔄 Recurring Decision Patterns"
           message := InsightMessage.recurringPatterns (findSimilarDecisions lc decisions).length
           type := none
           confidence := 75 }]
       else []) ++
      (if (((decisions.filter (fun d =>
            includes (lc d.reasoning) "learn" || tagsInclude d "learning")).length : Nat) : ℚ) >
          (decisions.length : ℚ) * 0.4 then
        [{ title := "📚 Growth Mindset Detected"
           message := InsightMessage.growthMindset
             (decisions.filter (fun d =>
               includes (lc d.reasoning) "learn" || tagsInclude d "learning")).length
             decisions.length
           type := none
           confidence := 88 }]
       else []) := by
  simp only [analyzePatterns, gt_three_tenths]
  split_ifs <;> simp

theorem mem_optional_append {α : Type} (x : α) (c : Prop) [Decidable c] (a : α) (l : List α) :
    x ∈ (if c then [a] else []) ++ l ↔ (c ∧ x = a) ∨ x ∈ l := by
  by_cases h : c <;> simp [h]

theorem mem_optional_prepend {α : Type} (x : α) (c : Prop) [Decidable c] (a : α) (l : List α) :
    x ∈ l ++ (if c then [a] else []) ↔ x ∈ l ∨ (c ∧ x = a) := by
  by_cases h : c <;> simp [h]

theorem mem_optional {α : Type} (x : α) (c : Prop) [Decidable c] (a : α) :
    x ∈ (if c then [a] else []) ↔ (c ∧ x = a) := by
  by_cases h : c <;> simp [h]

theorem timeFilter_length (lc : String → String) (decisions : List Decision) :
    (decisions.filter (fun d =>
      includes (lc d.constraints) "time" || tagsInclude d "time-sensitive")).length =
      timePressureCount lc decisions := by
  unfold timePressureCount
  rw [List.countP_eq_length_filter]
  congr 1
  apply List.filter_congr
  intro d _
  have key : ∀ o : Option (List String),
      (match o with
        | none => false
        | some ts => ts.contains "time-sensitive") = true ↔
      "time-sensitive" ∈ o.getD [] := by
    intro o
    cases o with
    | none => simp
    | some ts => simp
  have h1 : tagsInclude d "time-sensitive" = true ↔ "time-sensitive" ∈ d.tags.getD [] :=
    key d.tags
  rw [Bool.eq_iff_iff]
  simp only [Bool.or_eq_true, decide_eq_true_eq, TimePressured, includes_iff, h1]
  exact or_comm

/-- C16: `analyzePatterns` emits the insight titled `Time Pressure Pattern`
exactly when the number of records that carry the tag `time-sensitive` or whose
lower-cased constraints contain `time` is strictly more than 30% of the number
of records; the insight has confidence 85; ten records of which at least four
are such records yield it. -/
theorem analyzePatterns_timePressure_spec (lc : String → String)
    (decisions : List Decision) :
    ((∃ ins ∈ analyzePatterns lc decisions, ins.title = "⏳ Time Pressure Pattern") ↔
      3 * decisions.length < 10 * timePressureCount lc decisions) ∧
    (∀ ins ∈ analyzePatterns lc decisions, ins.title = "⏳ Time Pressure Pattern" →
      ins.confidence = 85 ∧ ins.type = none ∧
      ins.message =
        InsightMessage.timePressure (timePressureCount lc decisions) decisions.length) ∧
    (decisions.length = 10 → 4 ≤ timePressureCount lc decisions →
      ∃ ins ∈ analyzePatterns lc decisions,
        ins.title = "⏳ Time Pressure Pattern" ∧ ins.confidence = 85) := by
  have hmem : ∀ ins, ins ∈ analyzePatterns lc decisions →
      ins.title = "⏳ Time Pressure Pattern" →
      3 * decisions.length < 10 * timePressureCount lc decisions ∧
      ins = { title := "⏳ Time Pressure Pattern"
              message := InsightMessage.timePressure (timePressureCount lc decisions)
                decisions.length
              type := none
              confidence := 85 } := by
    intro ins hin ht
    rw [analyzePatterns_eq, timeFilter_length] at hin
    simp only [List.append_assoc, mem_optional_append, mem_optional] at hin
    rcases hin with ⟨h, rfl⟩ | ⟨_, rfl⟩ | ⟨_, rfl⟩ | ⟨_, rfl⟩
    · exact ⟨h, rfl⟩
    · exact absurd ht (by dsimp only; decide)
    · exact absurd ht (by dsimp only; decide)
    · exact absurd ht (by dsimp only; decide)
  have hback : 3 * decisions.length < 10 * timePressureCount lc decisions →
      ∃ ins ∈ analyzePatterns lc decisions,
        ins.title = "⏳ Time Pressure Pattern" ∧ ins.confidence = 85 := by
    intro h
    refine ⟨{ title := "⏳ Time Pressure Pattern"
              message := InsightMessage.timePressure (timePressureCount lc decisions)
                decisions.length
              type := none
              confidence := 85 }, ?_, rfl, rfl⟩
    rw [analyzePatterns_eq, timeFilter_length]
    simp only [List.append_assoc, mem_optional_append, mem_optional]
    exact Or.inl ⟨h, trivial⟩
  refine ⟨⟨?_, ?_⟩, ?_, ?_⟩
  · rintro ⟨ins, hin, ht⟩
    exact (hmem ins hin ht).1
  · intro h
    obtain ⟨ins, hin, ht, _⟩ := hback h
    exact ⟨ins, hin, ht⟩
  · intro ins hin ht
    have := (hmem ins hin ht).2
    subst this
    exact ⟨rfl, rfl, rfl⟩
  · intro hlen h4
    apply hback
    omega

/-- C17: `analyzePatterns` emits the insight titled `Recurring Decision
Patterns` exactly when `findSimilarDecisions` returns at least one cluster; the
insight has confidence 75 and its message carries the number of clusters; when
no pair of records reaches similarity 15 the clusterer returns no cluster and
the insight is absent. -/
theorem analyzePatterns_recurring_spec (lc : String → String)
    (decisions : List Decision) :
    ((∃ ins ∈ analyzePatterns lc decisions, ins.title = "🔄 Recurring Decision Patterns") ↔
      1 ≤ (findSimilarDecisions lc decisions).length) ∧
    (∀ ins ∈ analyzePatterns lc decisions, ins.title = "🔄 Recurring Decision Patterns" →
      ins.confidence = 75 ∧
      ins.message =
        InsightMessage.recurringPatterns (findSimilarDecisions lc decisions).length) ∧
    (decisions.Pairwise (fun a b => similarity lc a b < 15) →
      findSimilarDecisions lc decisions = [] ∧
      ¬ ∃ ins ∈ analyzePatterns lc decisions,
        ins.title = "🔄 Recurring Decision Patterns") := by
  have hmem : ∀ ins, ins ∈ analyzePatterns lc decisions →
      ins.title = "🔄 Recurring Decision Patterns" →
      (findSimilarDecisions lc decisions).length > 0 ∧
      ins = { title := "🔄 Recurring Decision Patterns"
              message := InsightMessage.recurringPatterns
                (findSimilarDecisions lc decisions).length
              type := none
              confidence := 75 } := by
    intro ins hin ht
    rw [analyzePatterns_eq] at hin
    simp only [List.append_assoc, mem_optional_append, mem_optional] at hin
    rcases hin with ⟨_, rfl⟩ | ⟨_, rfl⟩ | ⟨h, rfl⟩ | ⟨_, rfl⟩
    · exact absurd ht (by dsimp only; decide)
    · exact absurd ht (by dsimp only; decide)
    · exact ⟨h, rfl⟩
    · exact absurd ht (by dsimp only; decide)
  refine ⟨⟨?_, ?_⟩, ?_, ?_⟩
  · rintro ⟨ins, hin, ht⟩
    exact (hmem ins hin ht).1
  · intro h
    refine ⟨{ title := "🔄 Recurring Decision Patterns"
              message := InsightMessage.recurringPatterns
                (findSimilarDecisions lc decisions).length
              type := none
              confidence := 75 }, ?_, rfl⟩
    rw [analyzePatterns_eq]
    simp only [List.append_assoc, mem_optional_append, mem_optional]
    exact Or.inr (Or.inr (Or.inl ⟨h, trivial⟩))
  · intro ins hin ht
    have := (hmem ins hin ht).2
    subst this
    exact ⟨rfl, rfl⟩
  · intro hp
    have hnil := findSimilarDecisions_eq_nil lc decisions hp
    refine ⟨hnil, ?_⟩
    rintro ⟨ins, hin, ht⟩
    have := (hmem ins hin ht).1
    rw [hnil] at this
    simp at this

theorem emotionalAlert_iff (lc : String → String) (decisions : List Decision) :
    (∃ ins ∈ analyzePatterns lc decisions, ins.title = "😟 Emotional State Alert") ↔
      decisions ≠ [] ∧ emotionSum decisions < 4 * decisions.length := by
  have hnum := numLt_numDiv (emotionSum decisions) decisions.length 4
  simp only [Int.cast_ofNat, ne_eq, List.length_eq_zero] at hnum
  rw [← hnum]
  constructor
  · rintro ⟨ins, hin, ht⟩
    rw [analyzePatterns_eq] at hin
    simp only [List.append_assoc, mem_optional_append, mem_optional] at hin
    rcases hin with ⟨_, rfl⟩ | ⟨h, rfl⟩ | ⟨_, rfl⟩ | ⟨_, rfl⟩
    · exact absurd ht (by dsimp only; decide)
    · exact h
    · exact absurd ht (by dsimp only; decide)
    · exact absurd ht (by dsimp only; decide)
  · intro h
    refine ⟨{ title := "😟 Emotional State Alert"
              message := InsightMessage.emotionalAlert
                (numDiv (emotionSum decisions : ℚ) decisions.length)
              type := some "warning"
              confidence := 90 }, ?_, rfl⟩
    rw [analyzePatterns_eq]
    simp only [List.append_assoc, mem_optional_append, mem_optional]
    exact Or.inr (Or.inl ⟨h, trivial⟩)

theorem emotionalAlert_fields (lc : String → String) (decisions : List Decision)
    (ins : Insight) (hin : ins ∈ analyzePatterns lc decisions)
    (ht : ins.title = "😟 Emotional State Alert") :
    ins.confidence = 90 ∧ ins.type = some "warning" := by
  rw [analyzePatterns_eq] at hin
  simp only [List.append_assoc, mem_optional_append, mem_optional] at hin
  rcases hin with ⟨_, rfl⟩ | ⟨_, rfl⟩ | ⟨_, rfl⟩ | ⟨_, rfl⟩
  · exact absurd ht (by dsimp only; decide)
  · exact ⟨rfl, rfl⟩
  · exact absurd ht (by dsimp only; decide)
  · exact absurd ht (by dsimp only; decide)

theorem mean_lt_four (s : Int) (n : Nat) (hn : n ≠ 0) :
    ((s : ℚ) / (n : ℚ) < 4) ↔ s < 4 * n := by
  have hpos : (0 : ℚ) < (n : ℚ) := by
    have : 0 < n := Nat.pos_of_ne_zero hn
    exact_mod_cast this
  rw [div_lt_iff₀ hpos]
  constructor
  · intro h
    exact_mod_cast h
  · intro h
    exact_mod_cast h

theorem emotionTotal_eq_of_nonzero (decisions : List Decision)
    (h : ∀ d ∈ decisions, ∃ v, d.emotionalState = some v ∧ v ≠ 0) :
    emotionTotalZeroAsFive decisions = emotionTotal decisions := by
  unfold emotionTotalZeroAsFive emotionTotal
  congr 1
  apply List.map_congr_left
  intro d hd
  obtain ⟨v, hv, hv0⟩ := h d hd
  simp [hv, hv0]

/-- C18, as amended: for a non-empty collection `analyzePatterns` emits the
insight titled `Emotional State Alert`, with confidence 90 and type `warning`,
exactly when the mean of the records' emotional states, a state of 0 (or a
missing one) being counted as 5, is below 4; when every record has a non-zero
state this is the plain mean of the states. -/
theorem analyzePatterns_emotionalAlert_spec (lc : String → String)
    (decisions : List Decision) (hne : decisions ≠ []) :
    ((∃ ins ∈ analyzePatterns lc decisions, ins.title = "😟 Emotional State Alert") ↔
      (emotionTotalZeroAsFive decisions : ℚ) / (decisions.length : ℚ) < 4) ∧
    (∀ ins ∈ analyzePatterns lc decisions, ins.title = "😟 Emotional State Alert" →
      ins.confidence = 90 ∧ ins.type = some "warning") ∧
    ((∀ d ∈ decisions, ∃ v, d.emotionalState = some v ∧ v ≠ 0) →
      ((∃ ins ∈ analyzePatterns lc decisions, ins.title = "😟 Emotional State Alert") ↔
        (emotionTotal decisions : ℚ) / (decisions.length : ℚ) < 4)) := by
  have hn : decisions.length ≠ 0 := by
    intro h
    exact hne (List.length_eq_zero.1 h)
  have h1 : (∃ ins ∈ analyzePatterns lc decisions, ins.title = "😟 Emotional State Alert") ↔
      (emotionTotalZeroAsFive decisions : ℚ) / (decisions.length : ℚ) < 4 := by
    rw [emotionalAlert_iff, mean_lt_four _ _ hn, emotionSum_eq_total]
    simp [hne]
  refine ⟨h1, fun ins hin ht => emotionalAlert_fields lc decisions ins hin ht, ?_⟩
  intro hall
  rw [h1, emotionTotal_eq_of_nonzero decisions hall]

/-- Witness for C18: one record with emotional state 2 has mean 2 and yields the
alert. -/
theorem analyzePatterns_emotionalAlert_spec_witness :
    ([ { id := 1, title := "A", intent := "", constraints := "",
         alternatives := "", finalDecision := "", reasoning := "",
         emotionalState := some 2, tags := none, timestamp := 1, date := "" } ]
      : List Decision) ≠ [] ∧
    ∃ ins ∈ analyzePatterns asciiLower
      [ { id := 1, title := "A", intent := "", constraints := "",
          alternatives := "", finalDecision := "", reasoning := "",
          emotionalState := some 2, tags := none, timestamp := 1, date := "" } ],
      ins.title = "😟 Emotional State Alert" :=
  ⟨by decide,
   ((analyzePatterns_emotionalAlert_spec asciiLower
      [ { id := 1, title := "A", intent := "", constraints := "",
          alternatives := "", finalDecision := "", reasoning := "",
          emotionalState := some 2, tags := none, timestamp := 1, date := "" } ]
      (by decide)).1).2
     (by
       have h : emotionTotalZeroAsFive
           [ { id := 1, title := "A", intent := "", constraints := "",
               alternatives := "", finalDecision := "", reasoning := "",
               emotionalState := some 2, tags := none, timestamp := 1, date := "" } ] = 2 := by
         decide
       rw [h]
       norm_num)⟩

/-- C18, counterexample to the claim as stated: a single record with emotional
state 0 lies in the range 0..10 and has mean 0, which is below 4, but
`d.emotionalState || 5` counts it as 5 and no alert is emitted. -/
theorem analyzePatterns_emotionalAlert_counterexample :
    emotionTotal
      [ { id := 1, title := "A", intent := "", constraints := "",
          alternatives := "", finalDecision := "", reasoning := "",
          emotionalState := some 0, tags := none, timestamp := 1, date := "" } ] = 0 ∧
    emotionSum
      [ { id := 1, title := "A", intent := "", constraints := "",
          alternatives := "", finalDecision := "", reasoning := "",
          emotionalState := some 0, tags := none, timestamp := 1, date := "" } ] = 5 ∧
    ¬ ∃ ins ∈ analyzePatterns asciiLower
      [ { id := 1, title := "A", intent := "", constraints := "",
          alternatives := "", finalDecision := "", reasoning := "",
          emotionalState := some 0, tags := none, timestamp := 1, date := "" } ],
      ins.title = "😟 Emotional State Alert" := by
  refine ⟨by decide, by decide, ?_⟩
  rw [emotionalAlert_iff]
  decide

theorem highEmotionFilter_length (decisions : List Decision) :
    (decisions.filter (fun d =>
      match d.emotionalState with
      | none => false
      | some v => v != 0 && (decide (v ≤ 3) || decide (v ≥ 8)))).length =
      decisions.countP (fun d => decide (HighEmotionNonzero d)) := by
  rw [List.countP_eq_length_filter]
  congr 1
  apply List.filter_congr
  intro d _
  have key : ∀ o : Option Int,
      (match o with
        | none => false
        | some v => v != 0 && (decide (v ≤ 3) || decide (v ≥ 8))) = true ↔
      ∃ v, o = some v ∧ v ≠ 0 ∧ (v ≤ 3 ∨ 8 ≤ v) := by
    intro o
    cases o with
    | none => simp
    | some v => simp
  rw [Bool.eq_iff_iff, decide_eq_true_eq]
  exact key d.emotionalState

theorem detectBiases_eq (lc : String → String) (decisions : List Decision) :
    ∃ pre post : List Insight,
      detectBiases lc decisions =
        pre ++
        (if decisions.length <
            4 * decisions.countP (fun d => decide (HighEmotionNonzero d)) then
          [{ title := "😤 Emotional Decision Making"
             message := InsightMessage.emotionalDecisions
               (decisions.countP (fun d => decide (HighEmotionNonzero d))) decisions.length
             type := some "warning"
             confidence := 82 }]
         else []) ++ post ∧
      (∀ ins ∈ pre, ins.title = "🔍 Potential Confirmation Bias" ∨
        ins.title = "💸 Sunk Cost Fallacy Alert") ∧
      (∀ ins ∈ post, ins.title = "📰 Availability Bias Warning") := by
  simp only [detectBiases, gt_quarter, highEmotionFilter_length]
  refine ⟨(if numLt (numDiv ((decisions.filter (fun d =>
              truthy d.alternatives && decide (utf16Length d.alternatives > 50))).length : ℚ)
              decisions.length) 0.5 then
            [{ title := "🔍 Potential Confirmation Bias"
               message := InsightMessage.confirmationBias
                 (numDiv ((decisions.filter (fun d =>
                   truthy d.alternatives && decide (utf16Length d.alternatives > 50))).length : ℚ)
                   decisions.length)
               type := some "warning"
               confidence := 80 }]
           else []) ++
          (if (decisions.filter (fun d =>
              includes (lc d.reasoning) "already invested" ||
              includes (lc d.reasoning) "too late to change" ||
              includes (lc d.reasoning) "can\x27t waste")).length > 0 then
            [{ title := "💸 Sunk Cost Fallacy Alert"
               message := InsightMessage.sunkCost
                 (decisions.filter (fun d =>
                   includes (lc d.reasoning) "already invested" ||
                   includes (lc d.reasoning) "too late to change" ||
                   includes (lc d.reasoning) "can\x27t waste")).length
               type := some "danger"
               confidence := 70 }]
           else []),
         (if analyzeRecentPatterns (arraySlice decisions 0 5) decisions then
            [{ title := "📰 Availability Bias Warning"
               message := InsightMessage.availabilityBias
               type := none
               confidence := 75 }]
           else []), ?_, ?_, ?_⟩
  · split_ifs <;> simp
  · intro ins hin
    simp only [mem_optional_append, mem_optional] at hin
    rcases hin with ⟨_, rfl⟩ | ⟨_, rfl⟩
    · exact Or.inl rfl
    · exact Or.inr rfl
  · intro ins hin
    simp only [mem_optional] at hin
    rcases hin with ⟨_, rfl⟩
    rfl

theorem emotionalDecisions_mem (lc : String → String) (decisions : List Decision)
    (ins : Insight) (hin : ins ∈ detectBiases lc decisions)
    (ht : ins.title = "😤 Emotional Decision Making") :
    decisions.length < 4 * decisions.countP (fun d => decide (HighEmotionNonzero d)) ∧
    ins.confidence = 82 ∧ ins.type = some "warning" := by
  obtain ⟨pre, post, heq, hpre, hpost⟩ := detectBiases_eq lc decisions
  rw [heq] at hin
  simp only [List.append_assoc, List.mem_append, mem_optional] at hin
  rcases hin with h | ⟨h, rfl⟩ | h
  · rcases hpre ins h with h2 | h2
    · rw [h2] at ht; exact absurd ht (by decide)
    · rw [h2] at ht; exact absurd ht (by decide)
  · exact ⟨h, rfl, rfl⟩
  · rw [hpost ins h] at ht; exact absurd ht (by decide)

theorem emotionalDecisions_iff (lc : String → String) (decisions : List Decision) :
    (∃ ins ∈ detectBiases lc decisions, ins.title = "😤 Emotional Decision Making") ↔
      decisions.length < 4 * decisions.countP (fun d => decide (HighEmotionNonzero d)) := by
  constructor
  · rintro ⟨ins, hin, ht⟩
    exact (emotionalDecisions_mem lc decisions ins hin ht).1
  · intro h
    obtain ⟨pre, post, heq, _, _⟩ := detectBiases_eq lc decisions
    refine ⟨{ title := "😤 Emotional Decision Making"
              message := InsightMessage.emotionalDecisions
                (decisions.countP (fun d => decide (HighEmotionNonzero d))) decisions.length
              type := some "warning"
              confidence := 82 }, ?_, rfl⟩
    rw [heq]
    simp only [List.append_assoc, List.mem_append, mem_optional]
    exact Or.inr (Or.inl ⟨h, trivial⟩)

theorem highEmotion_count_of_nonzero (decisions : List Decision)
    (h : ∀ d ∈ decisions, d.emotionalState ≠ some 0) :
    decisions.countP (fun d => decide (HighEmotionNonzero d)) =
      decisions.countP (fun d => decide (HighEmotion d)) := by
  apply List.countP_congr
  intro d hd
  have h0 := h d hd
  simp only [decide_eq_true_eq, HighEmotionNonzero, HighEmotion]
  constructor
  · rintro ⟨v, hv, _, hr⟩
    exact ⟨v, hv, hr⟩
  · rintro ⟨v, hv, hr⟩
    refine ⟨v, hv, ?_, hr⟩
    intro hv0
    subst hv0
    exact h0 hv

/-- C19, as amended: `detectBiases` emits the insight titled `Emotional Decision
Making`, with confidence 82 and type `warning`, exactly when the number of
records whose emotional state is not 0 and is at most 3 or at least 8 is
strictly more than 25% of the number of records; when no record has state 0
this is the number of records with state at most 3 or at least 8. -/
theorem detectBiases_emotional_spec (lc : String → String) (decisions : List Decision) :
    ((∃ ins ∈ detectBiases lc decisions, ins.title = "😤 Emotional Decision Making") ↔
      decisions.length < 4 * decisions.countP (fun d => decide (HighEmotionNonzero d))) ∧
    (∀ ins ∈ detectBiases lc decisions, ins.title = "😤 Emotional Decision Making" →
      ins.confidence = 82 ∧ ins.type = some "warning") ∧
    ((∀ d ∈ decisions, d.emotionalState ≠ some 0) →
      ((∃ ins ∈ detectBiases lc decisions, ins.title = "😤 Emotional Decision Making") ↔
        decisions.length < 4 * decisions.countP (fun d => decide (HighEmotion d)))) := by
  refine ⟨emotionalDecisions_iff lc decisions,
    fun ins hin ht => (emotionalDecisions_mem lc decisions ins hin ht).2, ?_⟩
  intro h
  rw [emotionalDecisions_iff, highEmotion_count_of_nonzero decisions h]

/-- C19, counterexample to the claim as stated: a single record with emotional
state 0 is a record with state at most 3, so 100% of the records qualify, but
the guard `d.emotionalState &&` is falsy for 0 and no insight is emitted. -/
theorem detectBiases_emotional_counterexample :
    ([ { id := 1, title := "A", intent := "", constraints := "",
         alternatives := "", finalDecision := "", reasoning := "",
         emotionalState := some 0, tags := none, timestamp := 1, date := "" } ]
      : List Decision).countP (fun d => decide (HighEmotion d)) = 1 ∧
    ¬ ∃ ins ∈ detectBiases asciiLower
      [ { id := 1, title := "A", intent := "", constraints := "",
          alternatives := "", finalDecision := "", reasoning := "",
          emotionalState := some 0, tags := none, timestamp := 1, date := "" } ],
      ins.title = "😤 Emotional Decision Making" := by
  refine ⟨by decide, ?_⟩
  rw [emotionalDecisions_iff]
  decide

/-! ## importDecisions -/

/-- C20: for a stored collection `S` and an imported array `D`, the collection
after `importDecisions` is `S` followed, in document order, by exactly the
records of `D` whose id does not occur in `S`; `S` is kept unchanged at the
front, and the reported count is the number of records appended. -/
theorem importDecisions_merge_spec (S D : List Decision) :
    importDecisions S (ImportedDocument.array D) =
      (S ++ D.filter (fun d => decide (∀ s ∈ S, s.id ≠ d.id)),
       ImportNotice.success (D.filter (fun d => decide (∀ s ∈ S, s.id ≠ d.id))).length) ∧
    (importDecisions S (ImportedDocument.array D)).1.take S.length = S ∧
    List.Sublist ((importDecisions S (ImportedDocument.array D)).1.drop S.length) D ∧
    (∀ d, d ∈ (importDecisions S (ImportedDocument.array D)).1.drop S.length ↔
      d ∈ D ∧ ∀ s ∈ S, s.id ≠ d.id) ∧
    (importDecisions S (ImportedDocument.array D)).2 =
      ImportNotice.success
        ((importDecisions S (ImportedDocument.array D)).1.length - S.length) := by
  have hf : D.filter (fun d => !(S.map (fun d => d.id)).contains d.id) =
      D.filter (fun d => decide (∀ s ∈ S, s.id ≠ d.id)) := by
    apply List.filter_congr
    intro d _
    rw [Bool.eq_iff_iff]
    simp only [Bool.not_eq_true', decide_eq_true_eq]
    constructor
    · intro h s hs heq
      have : (S.map (fun d => d.id)).contains d.id = true := by
        rw [List.contains_eq_any_beq, List.any_eq_true]
        exact ⟨s.id, List.mem_map.2 ⟨s, hs, rfl⟩, by simp [heq]⟩
      rw [h] at this
      exact Bool.false_ne_true this
    · intro h
      rw [Bool.eq_false_iff]
      intro hc
      rw [List.contains_eq_any_beq, List.any_eq_true] at hc
      obtain ⟨i, hi, hbeq⟩ := hc
      obtain ⟨s, hs, heq⟩ := List.mem_map.1 hi
      have : d.id = i := by simpa using hbeq
      exact h s hs (by rw [heq, this])
  have hmain : importDecisions S (ImportedDocument.array D) =
      (S ++ D.filter (fun d => decide (∀ s ∈ S, s.id ≠ d.id)),
       ImportNotice.success (D.filter (fun d => decide (∀ s ∈ S, s.id ≠ d.id))).length) := by
    simp only [importDecisions, hf]
  refine ⟨hmain, ?_, ?_, ?_, ?_⟩
  · rw [hmain]; simp
  · rw [hmain]; simp
  · intro d
    rw [hmain]
    simp [List.mem_filter]
  · rw [hmain]; simp

/-! ## Concrete scenarios of the specification -/

/-- Witness for C16: ten records of which four are tagged `time-sensitive`
(40% > 30%) yield the insight with confidence 85. -/
theorem analyzePatterns_timePressure_spec_witness :
    ∃ ins ∈ analyzePatterns asciiLower
      (List.replicate 4
        { id := 1, title := "A", intent := "", constraints := "",
          alternatives := "", finalDecision := "", reasoning := "",
          emotionalState := some 5, tags := some ["time-sensitive"], timestamp := 1,
          date := "" } ++
       List.replicate 6
        { id := 2, title := "B", intent := "", constraints := "",
          alternatives := "", finalDecision := "", reasoning := "",
          emotionalState := some 5, tags := some [], timestamp := 2, date := "" }),
      ins.title = "⏳ Time Pressure Pattern" ∧ ins.confidence = 85 := by
  refine (analyzePatterns_timePressure_spec asciiLower _).2.2 ?_ ?_
  · decide
  · rw [← timeFilter_length]
    decide

/-- Witness for C17: four decisions of which two share the tag `financial` and
no title word; no pair reaches similarity 15, the clusterer returns no cluster
and the insight is absent. -/
theorem analyzePatterns_recurring_spec_witness :
    findSimilarDecisions asciiLower
      [ { id := 1, title := "Buy new laptop", intent := "", constraints := "",
          alternatives := "", finalDecision := "", reasoning := "",
          emotionalState := some 5, tags := some ["financial"], timestamp := 1, date := "" },
        { id := 2, title := "Repair old car", intent := "", constraints := "",
          alternatives := "", finalDecision := "", reasoning := "",
          emotionalState := some 5, tags := some ["financial"], timestamp := 2, date := "" },
        { id := 3, title := "Choose framework", intent := "", constraints := "",
          alternatives := "", finalDecision := "", reasoning := "",
          emotionalState := some 5, tags := some ["work"], timestamp := 3, date := "" },
        { id := 4, title := "Plan holiday", intent := "", constraints := "",
          alternatives := "", finalDecision := "", reasoning := "",
          emotionalState := some 5, tags := some ["personal"], timestamp := 4, date := "" } ]
      = [] ∧
    ¬ ∃ ins ∈ analyzePatterns asciiLower
      [ { id := 1, title := "Buy new laptop", intent := "", constraints := "",
          alternatives := "", finalDecision := "", reasoning := "",
          emotionalState := some 5, tags := some ["financial"], timestamp := 1, date := "" },
        { id := 2, title := "Repair old car", intent := "", constraints := "",
          alternatives := "", finalDecision := "", reasoning := "",
          emotionalState := some 5, tags := some ["financial"], timestamp := 2, date := "" },
        { id := 3, title := "Choose framework", intent := "", constraints := "",
          alternatives := "", finalDecision := "", reasoning := "",
          emotionalState := some 5, tags := some ["work"], timestamp := 3, date := "" },
        { id := 4, title := "Plan holiday", intent := "", constraints := "",
          alternatives := "", finalDecision := "", reasoning := "",
          emotionalState := some 5, tags := some ["personal"], timestamp := 4, date := "" } ],
      ins.title = "🔄 Recurring Decision Patterns" :=
  (analyzePatterns_recurring_spec asciiLower
    [ { id := 1, title := "Buy new laptop", intent := "", constraints := "",
        alternatives := "", finalDecision := "", reasoning := "",
        emotionalState := some 5, tags := some ["financial"], timestamp := 1, date := "" },
      { id := 2, title := "Repair old car", intent := "", constraints := "",
        alternatives := "", finalDecision := "", reasoning := "",
        emotionalState := some 5, tags := some ["financial"], timestamp := 2, date := "" },
      { id := 3, title := "Choose framework", intent := "", constraints := "",
        alternatives := "", finalDecision := "", reasoning := "",
        emotionalState := some 5, tags := some ["work"], timestamp := 3, date := "" },
      { id := 4, title := "Plan holiday", intent := "", constraints := "",
        alternatives := "", finalDecision := "", reasoning := "",
        emotionalState := some 5, tags := some ["personal"], timestamp := 4, date := "" } ]).2.2
    (by decide)

/-- Witness for C20: importing two records, one of which has the id of a stored
record, appends only the other and reports one new decision. -/
theorem importDecisions_merge_spec_witness :
    importDecisions
      [ { id := 1, title := "Stored", intent := "", constraints := "",
          alternatives := "", finalDecision := "", reasoning := "",
          emotionalState := some 5, tags := none, timestamp := 1, date := "" } ]
      (ImportedDocument.array
        [ { id := 1, title := "Clash", intent := "", constraints := "",
            alternatives := "", finalDecision := "", reasoning := "",
            emotionalState := some 7, tags := none, timestamp := 9, date := "" },
          { id := 2, title := "New", intent := "", constraints := "",
            alternatives := "", finalDecision := "", reasoning := "",
            emotionalState := some 5, tags := none, timestamp := 2, date := "" } ]) =
    ([ { id := 1, title := "Stored", intent := "", constraints := "",
         alternatives := "", finalDecision := "", reasoning := "",
         emotionalState := some 5, tags := none, timestamp := 1, date := "" },
       { id := 2, title := "New", intent := "", constraints := "",
         alternatives := "", finalDecision := "", reasoning := "",
         emotionalState := some 5, tags := none, timestamp := 2, date := "" } ],
     ImportNotice.success 1) :=
  ((importDecisions_merge_spec _ _).1).trans (by decide)

/-! ## Import, export and storage -/

theorem importDecisions_array (S D : List Decision) :
    importDecisions S (ImportedDocument.array D) =
      (S ++ D.filter (fun d => !(S.map (fun d => d.id)).contains d.id),
       ImportNotice.success
        (D.filter (fun d => !(S.map (fun d => d.id)).contains d.id)).length) := rfl

theorem contains_ids_iff (S : List Decision) (i : Int) :
    (S.map (fun d => d.id)).contains i = true ↔ ∃ s ∈ S, s.id = i := by
  rw [List.contains_eq_any_beq, List.any_eq_true]
  constructor
  · rintro ⟨x, hx, hb⟩
    obtain ⟨s, hs, rfl⟩ := List.mem_map.1 hx
    exact ⟨s, hs, (beq_iff_eq.1 hb).symm⟩
  · rintro ⟨s, hs, rfl⟩
    exact ⟨s.id, List.mem_map_of_mem _ hs, by simp⟩

theorem import_filter_again (S D : List Decision) :
    D.filter (fun d =>
      !((S ++ D.filter (fun d => !(S.map (fun d => d.id)).contains d.id)).map
        (fun d => d.id)).contains d.id) = [] := by
  rw [List.filter_eq_nil_iff]
  intro d hd
  have hc : ((S ++ D.filter (fun d => !(S.map (fun d => d.id)).contains d.id)).map
      (fun d => d.id)).contains d.id = true := by
    rw [contains_ids_iff]
    by_cases h : (S.map (fun d => d.id)).contains d.id = true
    · obtain ⟨s, hs, hid⟩ := (contains_ids_iff S d.id).1 h
      exact ⟨s, List.mem_append_left _ hs, hid⟩
    · refine ⟨d, List.mem_append_right _ ?_, rfl⟩
      rw [List.mem_filter]
      exact ⟨hd, by simpa using h⟩
  show ¬ ((!_) = true)
  rw [hc]
  decide

theorem import_filter_self (S : List Decision) :
    S.filter (fun d => !(S.map (fun d => d.id)).contains d.id) = [] := by
  rw [List.filter_eq_nil_iff]
  intro d hd
  have hc : (S.map (fun d => d.id)).contains d.id = true :=
    (contains_ids_iff S d.id).2 ⟨d, hd, rfl⟩
  show ¬ ((!_) = true)
  rw [hc]
  decide

/-- C21: importing an array document a second time adds zero records and leaves
the collection as it was after the first import; importing the store's own
export adds zero records and leaves the collection unchanged. -/
theorem importDecisions_idempotent_spec (S D : List Decision) :
    importDecisions (importDecisions S (ImportedDocument.array D)).1
        (ImportedDocument.array D) =
      ((importDecisions S (ImportedDocument.array D)).1, ImportNotice.success 0) ∧
    importDecisions S (exportDecisions S) = (S, ImportNotice.success 0) := by
  constructor
  · rw [importDecisions_array S D]
    simp only
    rw [importDecisions_array, import_filter_again]
    simp
  · unfold exportDecisions
    rw [importDecisions_array, import_filter_self]
    simp

/-- C22: when the top-level value of the imported document is not an array,
`importDecisions` shows the format error instead of a count and the stored
collection is unchanged; the same holds when the file does not parse. -/
theorem importDecisions_notArray_spec (S : List Decision) :
    importDecisions S ImportedDocument.notArray = (S, ImportNotice.error) ∧
    (∀ n, (importDecisions S ImportedDocument.notArray).2 ≠ ImportNotice.success n) ∧
    importDecisions S ImportedDocument.unparsable = (S, ImportNotice.error) := by
  refine ⟨rfl, ?_, rfl⟩
  intro n h
  cases h

/-- C23, as amended: `getDecisions` returns the empty collection when the key is
absent or the text parses to a falsy value (`null`, `false`, `0`, the empty
string), and the stored array when the text parses to an array; when the text
does not parse it fails with a syntax error, and when it parses to a truthy
value that is not an array it returns that value as it is. -/
theorem getDecisions_spec :
    getDecisions PersistedValue.absent = Except.ok (StoredJson.array []) ∧
    (∀ ds, getDecisions (PersistedValue.text (some (StoredJson.array ds))) =
      Except.ok (StoredJson.array ds)) ∧
    (∀ j, jsonTruthy j = false →
      getDecisions (PersistedValue.text (some j)) = Except.ok (StoredJson.array [])) ∧
    getDecisions (PersistedValue.text none) = Except.error StorageError.syntaxError ∧
    (∀ j, jsonTruthy j = true → getDecisions (PersistedValue.text (some j)) = Except.ok j) := by
  refine ⟨rfl, fun _ => rfl, ?_, rfl, ?_⟩
  · intro j hj
    simp [getDecisions, hj]
  · intro j hj
    simp [getDecisions, hj]

/-- C23, counterexample to the claim as stated: for a text that does not parse
`getDecisions` fails instead of returning the empty collection, and for a text
that parses to an object, such as `{}`, it returns the object. -/
theorem getDecisions_counterexample :
    getDecisions (PersistedValue.text none) = Except.error StorageError.syntaxError ∧
    getDecisions (PersistedValue.text (some StoredJson.object)) =
      Except.ok StoredJson.object ∧
    StoredJson.object ≠ StoredJson.array [] := by
  refine ⟨rfl, rfl, ?_⟩
  intro h
  cases h

/-! ## updateDecision -/

theorem findIndex_none {α : Type} (p : α → Bool) (l : List α) (h : ∀ x ∈ l, p x = false) :
    findIndex p l = none := by
  induction l with
  | nil => rfl
  | cons a l ih =>
    simp only [findIndex]
    rw [h a (List.mem_cons_self _ _)]
    simp [ih (fun x hx => h x (List.mem_cons_of_mem _ hx))]

theorem findIndex_split {α : Type} (p : α → Bool) (pre : List α) (d : α) (post : List α)
    (hpre : ∀ x ∈ pre, p x = false) (hd : p d = true) :
    findIndex p (pre ++ d :: post) = some pre.length := by
  induction pre with
  | nil => simp [findIndex, hd]
  | cons a pre ih =>
    simp only [List.cons_append, findIndex]
    rw [hpre a (List.mem_cons_self _ _)]
    simp [ih (fun x hx => hpre x (List.mem_cons_of_mem _ hx))]

theorem set_split {α : Type} (pre : List α) (d x : α) (post : List α) :
    (pre ++ d :: post).set pre.length x = pre ++ x :: post := by
  induction pre with
  | nil => rfl
  | cons a pre ih => simp [List.set, ih]

theorem exists_split_first {α : Type} (p : α → Bool) (l : List α) (h : ∃ x ∈ l, p x = true) :
    ∃ pre d post, l = pre ++ d :: post ∧ (∀ x ∈ pre, p x = false) ∧ p d = true := by
  induction l with
  | nil =>
    obtain ⟨x, hx, _⟩ := h
    exact absurd hx (List.not_mem_nil x)
  | cons a l ih =>
    by_cases ha : p a = true
    · exact ⟨[], a, l, rfl, by simp, ha⟩
    · have h2 : ∃ x ∈ l, p x = true := by
        obtain ⟨x, hx, hpx⟩ := h
        rcases List.mem_cons.1 hx with rfl | hx
        · exact absurd hpx ha
        · exact ⟨x, hx, hpx⟩
      obtain ⟨pre, d, post, hl, hpre, hd⟩ := ih h2
      refine ⟨a :: pre, d, post, by rw [hl]; rfl, ?_, hd⟩
      intro x hx
      rcases List.mem_cons.1 hx with rfl | hx
      · simpa using ha
      · exact hpre x hx

theorem updateDecision_absent (S : List Decision) (id : Int) (u : DecisionUpdate)
    (h : ∀ d ∈ S, d.id ≠ id) : updateDecision S id u = S := by
  unfold updateDecision
  rw [findIndex_none _ S (fun d hd => by simpa using h d hd)]

theorem updateDecision_split (pre post : List Decision) (d : Decision) (id : Int)
    (u : DecisionUpdate) (hpre : ∀ x ∈ pre, x.id ≠ id) (hd : d.id = id) :
    updateDecision (pre ++ d :: post) id u = pre ++ mergeDecision d u :: post := by
  unfold updateDecision
  rw [findIndex_split _ pre d post (fun x hx => by simpa using hpre x hx) (by simpa using hd)]
  simp only
  have hget : (pre ++ d :: post)[pre.length]? = some d := by
    rw [List.getElem?_append_right (le_refl _)]
    simp
  rw [hget]
  exact set_split pre d _ post

/-- C25: when no record has the given id `updateDecision` leaves the collection
unchanged; otherwise the first record with that id is replaced, at its position,
by the record that has the supplied value for every supplied field and the old
value for every other field, and all other records keep their value and place. -/
theorem updateDecision_spec (S : List Decision) (id : Int) (u : DecisionUpdate) :
    ((∀ d ∈ S, d.id ≠ id) → updateDecision S id u = S) ∧
    (∀ pre d post, S = pre ++ d :: post → (∀ x ∈ pre, x.id ≠ id) → d.id = id →
      updateDecision S id u = pre ++ mergeDecision d u :: post) ∧
    ((∃ d ∈ S, d.id = id) →
      ∃ pre d post, S = pre ++ d :: post ∧ (∀ x ∈ pre, x.id ≠ id) ∧ d.id = id) ∧
    (∀ d : Decision,
      (mergeDecision d u).id = u.id.getD d.id ∧
      (mergeDecision d u).title = u.title.getD d.title ∧
      (mergeDecision d u).intent = u.intent.getD d.intent ∧
      (mergeDecision d u).constraints = u.constraints.getD d.constraints ∧
      (mergeDecision d u).alternatives = u.alternatives.getD d.alternatives ∧
      (mergeDecision d u).finalDecision = u.finalDecision.getD d.finalDecision ∧
      (mergeDecision d u).reasoning = u.reasoning.getD d.reasoning ∧
      (mergeDecision d u).emotionalState = u.emotionalState.getD d.emotionalState ∧
      (mergeDecision d u).tags = u.tags.getD d.tags ∧
      (mergeDecision d u).timestamp = u.timestamp.getD d.timestamp ∧
      (mergeDecision d u).date = u.date.getD d.date) := by
  refine ⟨updateDecision_absent S id u, ?_, ?_, ?_⟩
  · intro pre d post hS hpre hd
    rw [hS]
    exact updateDecision_split pre post d id u hpre hd
  · rintro ⟨d, hd, hid⟩
    obtain ⟨pre, d2, post, hl, hpre, hd2⟩ :=
      exists_split_first (fun d => d.id == id) S ⟨d, hd, by simpa using hid⟩
    exact ⟨pre, d2, post, hl, fun x hx => by simpa using hpre x hx, by simpa using hd2⟩
  · intro d
    exact ⟨rfl, rfl, rfl, rfl, rfl, rfl, rfl, rfl, rfl, rfl, rfl⟩

/-- Witness for C25: of two records with id 7 the first gets the new title and
keeps its other fields, the second and the record with id 3 are untouched. -/
theorem updateDecision_spec_witness :
    updateDecision
      [ { id := 3, title := "First", intent := "i", constraints := "c",
          alternatives := "", finalDecision := "f", reasoning := "r",
          emotionalState := some 5, tags := none, timestamp := 3, date := "" },
        { id := 7, title := "Old", intent := "i", constraints := "c",
          alternatives := "", finalDecision := "f", reasoning := "r",
          emotionalState := some 5, tags := none, timestamp := 7, date := "" },
        { id := 7, title := "Twin", intent := "i", constraints := "c",
          alternatives := "", finalDecision := "f", reasoning := "r",
          emotionalState := some 5, tags := none, timestamp := 8, date := "" } ]
      7
      { id := none, title := some "New", intent := none, constraints := none,
        alternatives := none, finalDecision := none, reasoning := none,
        emotionalState := none, tags := none, timestamp := some 9, date := none } =
      [ { id := 3, title := "First", intent := "i", constraints := "c",
          alternatives := "", finalDecision := "f", reasoning := "r",
          emotionalState := some 5, tags := none, timestamp := 3, date := "" },
        { id := 7, title := "New", intent := "i", constraints := "c",
          alternatives := "", finalDecision := "f", reasoning := "r",
          emotionalState := some 5, tags := none, timestamp := 9, date := "" },
        { id := 7, title := "Twin", intent := "i", constraints := "c",
          alternatives := "", finalDecision := "f", reasoning := "r",
          emotionalState := some 5, tags := none, timestamp := 8, date := "" } ] := by
  refine ((updateDecision_spec _ 7 _).2.1
    [ { id := 3, title := "First", intent := "i", constraints := "c",
        alternatives := "", finalDecision := "f", reasoning := "r",
        emotionalState := some 5, tags := none, timestamp := 3, date := "" } ]
    { id := 7, title := "Old", intent := "i", constraints := "c",
      alternatives := "", finalDecision := "f", reasoning := "r",
      emotionalState := some 5, tags := none, timestamp := 7, date := "" }
    [ { id := 7, title := "Twin", intent := "i", constraints := "c",
        alternatives := "", finalDecision := "f", reasoning := "r",
        emotionalState := some 5, tags := none, timestamp := 8, date := "" } ]
    rfl (by decide) rfl).trans ?_
  decide

/-! ## Uniqueness of ids -/

/-- Adding a record with a fresh id keeps the ids pairwise distinct. -/
theorem addDecision_ids_nodup (S : List Decision) (d : Decision)
    (h : (S.map (fun d => d.id)).Nodup) (hfresh : ∀ s ∈ S, s.id ≠ d.id) :
    ((addDecision S d).map (fun d => d.id)).Nodup := by
  unfold addDecision
  rw [List.map_append, List.nodup_append]
  refine ⟨h, by simp, ?_⟩
  intro i hi hj
  simp only [List.map_cons, List.map_nil, List.mem_singleton] at hj
  obtain ⟨s, hs, rfl⟩ := List.mem_map.1 hi
  exact hfresh s hs hj

/-- Deleting by id keeps the ids pairwise distinct. -/
theorem deleteDecision_ids_nodup (S : List Decision) (id : Int)
    (h : (S.map (fun d => d.id)).Nodup) :
    ((deleteDecision S id).map (fun d => d.id)).Nodup :=
  List.Nodup.sublist ((List.filter_sublist S).map _) h

/-- An update that does not change the id keeps the list of ids as it is. -/
theorem updateDecision_ids (S : List Decision) (id : Int) (u : DecisionUpdate)
    (hu : u.id = none ∨ u.id = some id) :
    (updateDecision S id u).map (fun d => d.id) = S.map (fun d => d.id) := by
  by_cases hex : ∃ d ∈ S, d.id = id
  · obtain ⟨d, hd, hid⟩ := hex
    obtain ⟨pre, d2, post, hl, hpre, hd2⟩ :=
      exists_split_first (fun d => d.id == id) S ⟨d, hd, by simpa using hid⟩
    have hd3 : d2.id = id := by simpa using hd2
    rw [hl, updateDecision_split pre post d2 id u (fun x hx => by simpa using hpre x hx) hd3]
    simp only [List.map_append, List.map_cons]
    have : (mergeDecision d2 u).id = d2.id := by
      rcases hu with h | h
      · simp [mergeDecision, h]
      · simp [mergeDecision, h, hd3]
    rw [this]
  · rw [updateDecision_absent S id u (fun d hd hid => hex ⟨d, hd, hid⟩)]

/-- Importing an array whose own ids are pairwise distinct keeps the ids
pairwise distinct. -/
theorem importDecisions_ids_nodup (S D : List Decision)
    (h : (S.map (fun d => d.id)).Nodup) (hD : (D.map (fun d => d.id)).Nodup) :
    ((importDecisions S (ImportedDocument.array D)).1.map (fun d => d.id)).Nodup := by
  rw [importDecisions_array]
  simp only
  rw [List.map_append, List.nodup_append]
  refine ⟨h, List.Nodup.sublist ((List.filter_sublist D).map _) hD, ?_⟩
  intro i hi hj
  obtain ⟨d, hd, rfl⟩ := List.mem_map.1 hj
  have hc := (List.mem_filter.1 hd).2
  have : (S.map (fun d => d.id)).contains d.id = true := by
    rw [List.contains_eq_any_beq, List.any_eq_true]
    exact ⟨d.id, hi, by simp⟩
  rw [this] at hc
  exact absurd hc (by decide)

/-- C24, the failing input evaluated: the empty store has pairwise distinct ids,
the imported array holds two records with id 1, none of which occurs in the
store, so both are appended and the ids are no longer pairwise distinct. -/
theorem importDecisions_duplicate_ids_failing_input :
    (([] : List Decision).map (fun d => d.id)).Nodup ∧
    importDecisions []
      (ImportedDocument.array
        [ { id := 1, title := "A", intent := "", constraints := "",
            alternatives := "", finalDecision := "", reasoning := "",
            emotionalState := some 5, tags := none, timestamp := 1, date := "" },
          { id := 1, title := "B", intent := "", constraints := "",
            alternatives := "", finalDecision := "", reasoning := "",
            emotionalState := some 5, tags := none, timestamp := 2, date := "" } ]) =
      ([ { id := 1, title := "A", intent := "", constraints := "",
           alternatives := "", finalDecision := "", reasoning := "",
           emotionalState := some 5, tags := none, timestamp := 1, date := "" },
         { id := 1, title := "B", intent := "", constraints := "",
           alternatives := "", finalDecision := "", reasoning := "",
           emotionalState := some 5, tags := none, timestamp := 2, date := "" } ],
       ImportNotice.success 2) ∧
    ¬ (((importDecisions []
      (ImportedDocument.array
        [ { id := 1, title := "A", intent := "", constraints := "",
            alternatives := "", finalDecision := "", reasoning := "",
            emotionalState := some 5, tags := none, timestamp := 1, date := "" },
          { id := 1, title := "B", intent := "", constraints := "",
            alternatives := "", finalDecision := "", reasoning := "",
            emotionalState := some 5, tags := none, timestamp := 2, date := "" } ])).1.map
        (fun d => d.id)).Nodup) := by
  refine ⟨by decide, by decide, by decide⟩

/-! ## The recent-5 window -/

theorem arraySlice_zero_five {α : Type} (xs : List α) : arraySlice xs 0 5 = xs.take 5 := by
  have h := arraySlice_window xs 0 5
  simpa using h

theorem calculateSentimentScore_of_ne_nil (lc : String → String) (l : List SentimentItem)
    (h : l ≠ []) :
    calculateSentimentScore lc l =
      (((l.map (fun i => clampScore (rawScore lc (itemText i)))).sum : Int) : ℚ) /
        ((l.length : Nat) : ℚ) := by
  cases l with
  | nil => exact absurd rfl h
  | cons item rest => exact calculateSentimentScore_cons lc item rest

/-- The window that `detectBiases` and `analyzeSentiment` take is the first five
records of the sequence they are given. -/
theorem recent_window_eq_take (decisions : List Decision) :
    arraySlice decisions 0 5 = decisions.take 5 :=
  arraySlice_zero_five decisions

/-- C26, the failing input evaluated: ten records stored in creation order, the
five oldest with positive reasoning and the five newest with none. The window
`slice(0, 5)` holds the five oldest records, not the five newest, so
`analyzeSentiment` reports improving sentiment; on the same records in
newest-first order it reports declining sentiment. -/
theorem analyzeSentiment_window_failing_input :
    (arraySlice
      ((List.range 10).map (fun i =>
        ({ id := (i : Int) + 1, title := "T", intent := "", constraints := "",
           alternatives := "", finalDecision := "",
           reasoning := if i < 5 then "good great excellent positive happy satisfied" else "",
           emotionalState := some 5, tags := none, timestamp := (i : Int) + 1,
           date := "" } : Decision))) 0 5).map (fun d => d.timestamp) = [1, 2, 3, 4, 5] ∧
    (newestFive
      ((List.range 10).map (fun i =>
        ({ id := (i : Int) + 1, title := "T", intent := "", constraints := "",
           alternatives := "", finalDecision := "",
           reasoning := if i < 5 then "good great excellent positive happy satisfied" else "",
           emotionalState := some 5, tags := none, timestamp := (i : Int) + 1,
           date := "" } : Decision)))).map (fun d => d.timestamp) = [10, 9, 8, 7, 6] ∧
    (analyzeSentiment asciiLower
      ((List.range 10).map (fun i =>
        ({ id := (i : Int) + 1, title := "T", intent := "", constraints := "",
           alternatives := "", finalDecision := "",
           reasoning := if i < 5 then "good great excellent positive happy satisfied" else "",
           emotionalState := some 5, tags := none, timestamp := (i : Int) + 1,
           date := "" } : Decision)))).map (fun ins => ins.title) =
      ["📈 Improving Decision Sentiment"] ∧
    (analyzeSentiment asciiLower
      (arraySort byTimestampDesc
        ((List.range 10).map (fun i =>
          ({ id := (i : Int) + 1, title := "T", intent := "", constraints := "",
             alternatives := "", finalDecision := "",
             reasoning :=
               if i < 5 then "good great excellent positive happy satisfied" else "",
             emotionalState := some 5, tags := none, timestamp := (i : Int) + 1,
             date := "" } : Decision))))).map (fun ins => ins.title) =
      ["📉 Declining Decision Sentiment"] := by
  refine ⟨by decide, by decide, ?_, ?_⟩
  · generalize hds : ((List.range 10).map (fun i =>
        ({ id := (i : Int) + 1, title := "T", intent := "", constraints := "",
           alternatives := "", finalDecision := "",
           reasoning := if i < 5 then "good great excellent positive happy satisfied" else "",
           emotionalState := some 5, tags := none, timestamp := (i : Int) + 1,
           date := "" } : Decision))) = ds
    have hr : calculateSentimentScore asciiLower
        ((arraySlice ds 0 5).map SentimentItem.record) = 80 := by
      rw [calculateSentimentScore_of_ne_nil _ _ (by subst hds; decide)]
      have hs : (((arraySlice ds 0 5).map SentimentItem.record).map
          (fun i => clampScore (rawScore asciiLower (itemText i)))).sum = 400 := by
        subst hds; decide
      have hl : ((arraySlice ds 0 5).map SentimentItem.record).length = 5 := by
        subst hds; decide
      rw [hs, hl]
      norm_num
    have ho : calculateSentimentScore asciiLower (ds.map SentimentItem.record) = 65 := by
      rw [calculateSentimentScore_of_ne_nil _ _ (by subst hds; decide)]
      have hs : ((ds.map SentimentItem.record).map
          (fun i => clampScore (rawScore asciiLower (itemText i)))).sum = 650 := by
        subst hds; decide
      have hl : (ds.map SentimentItem.record).length = 10 := by
        subst hds; decide
      rw [hs, hl]
      norm_num
    have hw : ds.filter (fun d => tagsInclude d "work") = [] := by subst hds; decide
    have hc : ds.filter (fun d => decide (utf16Length d.constraints > 100)) = [] := by
      subst hds; decide
    simp only [analyzeSentiment, hr, ho, hw, hc]
    norm_num
  · generalize hds : arraySort byTimestampDesc ((List.range 10).map (fun i =>
        ({ id := (i : Int) + 1, title := "T", intent := "", constraints := "",
           alternatives := "", finalDecision := "",
           reasoning := if i < 5 then "good great excellent positive happy satisfied" else "",
           emotionalState := some 5, tags := none, timestamp := (i : Int) + 1,
           date := "" } : Decision))) = ds
    have hr : calculateSentimentScore asciiLower
        ((arraySlice ds 0 5).map SentimentItem.record) = 50 := by
      rw [calculateSentimentScore_of_ne_nil _ _ (by subst hds; decide)]
      have hs : (((arraySlice ds 0 5).map SentimentItem.record).map
          (fun i => clampScore (rawScore asciiLower (itemText i)))).sum = 250 := by
        subst hds; decide
      have hl : ((arraySlice ds 0 5).map SentimentItem.record).length = 5 := by
        subst hds; decide
      rw [hs, hl]
      norm_num
    have ho : calculateSentimentScore asciiLower (ds.map SentimentItem.record) = 65 := by
      rw [calculateSentimentScore_of_ne_nil _ _ (by subst hds; decide)]
      have hs : ((ds.map SentimentItem.record).map
          (fun i => clampScore (rawScore asciiLower (itemText i)))).sum = 650 := by
        subst hds; decide
      have hl : (ds.map SentimentItem.record).length = 10 := by
        subst hds; decide
      rw [hs, hl]
      norm_num
    have hw : ds.filter (fun d => tagsInclude d "work") = [] := by subst hds; decide
    have hc : ds.filter (fun d => decide (utf16Length d.constraints > 100)) = [] := by
      subst hds; decide
    simp only [analyzeSentiment, hr, ho, hw, hc]
    norm_num

/-! ## The clusterer: disjointness and order -/

theorem innerStep_fold_snd (lc : String → String) (a : Decision)
    (l : List (Nat × Decision)) (hl : (l.map Prod.fst).Nodup) (c P : List Nat) :
    (l.foldl (innerStep lc a) (c, P)).2 =
      P ++ (l.filter (fun jb => decide (jb.1 ∉ P ∧ 15 ≤ similarity lc a jb.2))).map Prod.fst := by
  induction l generalizing c P with
  | nil => simp
  | cons jb l ih =>
    rw [List.map_cons, List.nodup_cons] at hl
    rw [List.foldl_cons]
    by_cases hP : jb.1 ∈ P
    · have hstep : innerStep lc a (c, P) jb = (c, P) := by
        simp [innerStep, hP]
      rw [hstep, ih hl.2, List.filter_cons_of_neg (by simp [hP])]
    · by_cases hs : 15 ≤ similarity lc a jb.2
      · have hstep : innerStep lc a (c, P) jb = (c ++ [jb.1], P ++ [jb.1]) := by
          simp [innerStep, hP, hs]
        rw [hstep, ih hl.2, List.filter_cons_of_pos (by simp [hP, hs])]
        have hcongr : l.filter (fun x => decide (x.1 ∉ P ++ [jb.1] ∧ 15 ≤ similarity lc a x.2)) =
            l.filter (fun x => decide (x.1 ∉ P ∧ 15 ≤ similarity lc a x.2)) := by
          apply List.filter_congr
          intro x hx
          have hne : x.1 ≠ jb.1 := by
            intro he
            exact hl.1 (he ▸ List.mem_map_of_mem Prod.fst hx)
          simp [hne]
        rw [hcongr]
        simp
      · have hstep : innerStep lc a (c, P) jb = (c, P) := by
          simp [innerStep, hP]
          omega
        rw [hstep, ih hl.2, List.filter_cons_of_neg (by simp [hP, hs])]

theorem innerLoop_processed (lc : String → String) (decisions : List Decision) (i : Nat)
    (a : Decision) (P : List Nat) :
    (innerLoop lc decisions i a P).2 = P ++ (innerLoop lc decisions i a P).1.tail := by
  rw [innerLoop_cluster]
  unfold innerLoop
  rw [innerStep_fold_snd lc a _ (enum_drop_fst_nodup _ _)]
  rfl

theorem innerLoop_head (lc : String → String) (decisions : List Decision) (i : Nat)
    (a : Decision) (P : List Nat) :
    (innerLoop lc decisions i a P).1 = i :: (innerLoop lc decisions i a P).1.tail := by
  rw [innerLoop_cluster]
  rfl

theorem innerLoop_tail_mem (lc : String → String) (decisions : List Decision) (i : Nat)
    (a : Decision) (P : List Nat) (k : Nat)
    (hk : k ∈ (innerLoop lc decisions i a P).1.tail) : i < k ∧ k ∉ P := by
  rw [innerLoop_cluster, List.tail_cons, List.mem_map] at hk
  obtain ⟨⟨j, b⟩, hjb, rfl⟩ := hk
  rw [List.mem_filter] at hjb
  have h1 := (mem_enum_drop decisions (i + 1) j b).1 hjb.1
  have h2 := of_decide_eq_true hjb.2
  exact ⟨by omega, h2.1⟩

theorem innerLoop_tail_sorted (lc : String → String) (decisions : List Decision) (i : Nat)
    (a : Decision) (P : List Nat) :
    (innerLoop lc decisions i a P).1.tail.Pairwise (fun x y => x < y) := by
  rw [innerLoop_cluster, List.tail_cons]
  have hsub : List.Sublist
      (((decisions.enum.drop (i + 1)).filter
        (fun jb => decide (jb.1 ∉ P ∧ 15 ≤ similarity lc a jb.2))).map Prod.fst)
      (List.range decisions.length) := by
    refine List.Sublist.trans ((List.filter_sublist _).map _) ?_
    rw [List.map_drop, List.enum_map_fst]
    exact List.drop_sublist _ _
  exact List.Pairwise.sublist hsub (List.pairwise_lt_range _)

/-- The invariant of the outer loop when it reaches index `n`. -/
theorem outerStep_invariant (lc : String → String) (decisions : List Decision)
    (n : Nat) (a : Decision) (st : List (List Nat) × List Nat)
    (h1 : ∀ c ∈ st.1, ∃ seed rest, c = seed :: rest ∧ seed < n ∧
      (∀ k ∈ rest, seed < k) ∧ rest.Pairwise (fun x y => x < y))
    (h2 : ∀ c ∈ st.1, ∀ k ∈ c, k ∈ st.2)
    (h3 : st.1.Pairwise List.Disjoint)
    (h4 : st.1.Pairwise (fun c1 c2 => ∀ x ∈ c1.head?, ∀ y ∈ c2.head?, x < y)) :
    (∀ c ∈ (outerStep lc decisions st (n, a)).1, ∃ seed rest, c = seed :: rest ∧
      seed < n + 1 ∧ (∀ k ∈ rest, seed < k) ∧ rest.Pairwise (fun x y => x < y)) ∧
    (∀ c ∈ (outerStep lc decisions st (n, a)).1, ∀ k ∈ c,
      k ∈ (outerStep lc decisions st (n, a)).2) ∧
    (outerStep lc decisions st (n, a)).1.Pairwise List.Disjoint ∧
    (outerStep lc decisions st (n, a)).1.Pairwise
      (fun c1 c2 => ∀ x ∈ c1.head?, ∀ y ∈ c2.head?, x < y) := by
  have h1' : ∀ c ∈ st.1, ∃ seed rest, c = seed :: rest ∧ seed < n + 1 ∧
      (∀ k ∈ rest, seed < k) ∧ rest.Pairwise (fun x y => x < y) := by
    intro c hc
    obtain ⟨seed, rest, e, hlt, hr, hp⟩ := h1 c hc
    exact ⟨seed, rest, e, by omega, hr, hp⟩
  unfold outerStep
  by_cases hn : st.2.contains n = true
  · rw [if_pos hn]
    exact ⟨h1', h2, h3, h4⟩
  · rw [if_neg hn]
    have hnP : n ∉ st.2 := by
      intro hmem
      exact hn (List.contains_iff_exists_mem_beq.2 ⟨n, hmem, by simp⟩)
    dsimp only
    have hhead := innerLoop_head lc decisions n a st.2
    have hproc := innerLoop_processed lc decisions n a st.2
    have htm := innerLoop_tail_mem lc decisions n a st.2
    have hts := innerLoop_tail_sorted lc decisions n a st.2
    generalize innerLoop lc decisions n a st.2 = r at hhead hproc htm hts
    by_cases hlen : r.1.length > 1
    · rw [if_pos hlen]
      refine ⟨?_, ?_, ?_, ?_⟩
      · intro c hc
        rcases List.mem_append.1 hc with hc | hc
        · exact h1' c hc
        · rw [List.mem_singleton] at hc
          subst hc
          exact ⟨n, r.1.tail, hhead, by omega, fun k hk => (htm k hk).1, hts⟩
      · intro c hc k hk
        simp only
        rw [hproc]
        rcases List.mem_append.1 hc with hc | hc
        · exact List.mem_append_left _ (List.mem_append_left _ (h2 c hc k hk))
        · rw [List.mem_singleton] at hc
          subst hc
          rw [hhead] at hk
          rcases List.mem_cons.1 hk with rfl | hk
          · exact List.mem_append_right _ (List.mem_singleton_self _)
          · exact List.mem_append_left _ (List.mem_append_right _ hk)
      · rw [List.pairwise_append]
        refine ⟨h3, List.pairwise_singleton _ _, ?_⟩
        intro c1 hc1 c2 hc2
        rw [List.mem_singleton] at hc2
        subst hc2
        intro k hk1 hk2
        have hkP := h2 c1 hc1 k hk1
        rw [hhead] at hk2
        rcases List.mem_cons.1 hk2 with rfl | hk2
        · exact hnP hkP
        · exact (htm k hk2).2 hkP
      · rw [List.pairwise_append]
        refine ⟨h4, List.pairwise_singleton _ _, ?_⟩
        intro c1 hc1 c2 hc2
        rw [List.mem_singleton] at hc2
        subst hc2
        intro x hx y hy
        obtain ⟨seed, rest, e, hlt, _, _⟩ := h1 c1 hc1
        rw [e] at hx
        rw [hhead] at hy
        simp only [List.head?_cons, Option.mem_def, Option.some.injEq] at hx hy
        omega
    · rw [if_neg hlen]
      refine ⟨h1', ?_, h3, h4⟩
      intro c hc k hk
      simp only
      rw [hproc]
      exact List.mem_append_left _ (h2 c hc k hk)

theorem outer_fold_invariant (lc : String → String) (decisions : List Decision)
    (l : List Decision) (n : Nat) (st : List (List Nat) × List Nat)
    (h1 : ∀ c ∈ st.1, ∃ seed rest, c = seed :: rest ∧ seed < n ∧
      (∀ k ∈ rest, seed < k) ∧ rest.Pairwise (fun x y => x < y))
    (h2 : ∀ c ∈ st.1, ∀ k ∈ c, k ∈ st.2)
    (h3 : st.1.Pairwise List.Disjoint)
    (h4 : st.1.Pairwise (fun c1 c2 => ∀ x ∈ c1.head?, ∀ y ∈ c2.head?, x < y)) :
    (∀ c ∈ ((l.enumFrom n).foldl (outerStep lc decisions) st).1, ∃ seed rest,
      c = seed :: rest ∧ (∀ k ∈ rest, seed < k) ∧ rest.Pairwise (fun x y => x < y)) ∧
    ((l.enumFrom n).foldl (outerStep lc decisions) st).1.Pairwise List.Disjoint ∧
    ((l.enumFrom n).foldl (outerStep lc decisions) st).1.Pairwise
      (fun c1 c2 => ∀ x ∈ c1.head?, ∀ y ∈ c2.head?, x < y) := by
  induction l generalizing n st with
  | nil =>
    refine ⟨?_, h3, h4⟩
    intro c hc
    obtain ⟨seed, rest, e, _, hr, hp⟩ := h1 c hc
    exact ⟨seed, rest, e, hr, hp⟩
  | cons a l ih =>
    rw [List.enumFrom_cons, List.foldl_cons]
    obtain ⟨g1, g2, g3, g4⟩ := outerStep_invariant lc decisions n a st h1 h2 h3 h4
    exact ih (n + 1) _ g1 g2 g3 g4

/-- C27: the clusters that `findSimilarDecisions` returns are pairwise disjoint,
each cluster lists its seed first and then larger indices in strictly ascending
order, and the clusters appear in ascending order of their seeds. -/
theorem findSimilarDecisions_order_spec (lc : String → String)
    (decisions : List Decision) :
    (findSimilarDecisions lc decisions).Pairwise List.Disjoint ∧
    (∀ c ∈ findSimilarDecisions lc decisions, c.Pairwise (fun x y => x < y)) ∧
    (∀ c ∈ findSimilarDecisions lc decisions, ∃ seed rest, c = seed :: rest ∧
      ∀ k ∈ rest, seed < k) ∧
    (findSimilarDecisions lc decisions).Pairwise
      (fun c1 c2 => ∀ x ∈ c1.head?, ∀ y ∈ c2.head?, x < y) := by
  obtain ⟨g1, g3, g4⟩ := outer_fold_invariant lc decisions decisions 0 ([], [])
    (by simp) (by simp) List.Pairwise.nil List.Pairwise.nil
  refine ⟨g3, ?_, ?_, g4⟩
  · intro c hc
    obtain ⟨seed, rest, e, hr, hp⟩ := g1 c hc
    rw [e]
    exact List.Pairwise.cons hr hp
  · intro c hc
    obtain ⟨seed, rest, e, hr, _⟩ := g1 c hc
    exact ⟨seed, rest, e, hr⟩

/-! ## The sentiment scorer: the clamp is never active -/

theorem happy_infix_unhappy : "happy".data <:+: "unhappy".data :=
  ⟨"un".data, [], by decide⟩

/-- C28: the score of a text before the clamp lies between 5 and 100, so the
clamp leaves it unchanged and no single text scores below 5: `unhappy` contains
`happy`, so a text that matches all ten negative words matches a positive one. -/
theorem rawScore_bounds_spec (lc : String → String) (text : String) :
    5 ≤ rawScore lc text ∧ rawScore lc text ≤ 100 ∧
    clampScore (rawScore lc text) = rawScore lc text ∧
    (5 : ℚ) ≤ calculateSentimentScore lc [SentimentItem.text text] ∧
    calculateSentimentScore lc [SentimentItem.text text] = ((rawScore lc text : Int) : ℚ) ∧
    "happy".data <:+: "unhappy".data ∧
    "happy" ∈ positiveWords ∧ "unhappy" ∈ negativeWords := by
  have hP : positiveWords.countP (fun w => decide (w.data <:+: (lc text).data)) ≤ 10 :=
    List.countP_le_length _
  have hN : negativeWords.countP (fun w => decide (w.data <:+: (lc text).data)) ≤ 10 :=
    List.countP_le_length _
  have hmem1 : "happy" ∈ positiveWords := by decide
  have hmem2 : "unhappy" ∈ negativeWords := by decide
  have hkey : negativeWords.countP (fun w => decide (w.data <:+: (lc text).data)) = 10 →
      0 < positiveWords.countP (fun w => decide (w.data <:+: (lc text).data)) := by
    intro h
    have hlen : negativeWords.length = 10 := rfl
    rw [← hlen, List.countP_eq_length] at h
    have hun : "unhappy".data <:+: (lc text).data := by
      simpa using h "unhappy" hmem2
    have hh : "happy".data <:+: (lc text).data := happy_infix_unhappy.trans hun
    rw [List.countP_pos_iff]
    exact ⟨"happy", hmem1, by simpa using hh⟩
  have hraw := rawScore_eq lc text
  have hlow : 5 ≤ rawScore lc text := by
    rw [hraw]
    by_cases h10 : negativeWords.countP (fun w => decide (w.data <:+: (lc text).data)) = 10
    · have := hkey h10
      omega
    · omega
  have hhigh : rawScore lc text ≤ 100 := by
    rw [hraw]
    omega
  have hclamp : clampScore (rawScore lc text) = rawScore lc text := by
    unfold clampScore
    omega
  have hcalc : calculateSentimentScore lc [SentimentItem.text text] =
      ((rawScore lc text : Int) : ℚ) := by
    rw [calculateSentimentScore_single, itemText, hclamp]
  refine ⟨hlow, hhigh, hclamp, ?_, hcalc, happy_infix_unhappy, hmem1, hmem2⟩
  rw [hcalc]
  exact_mod_cast hlow
end Continuum
